import Mathlib

/-! ## ceres_examples_module: the BAL dataset loader and the Snavely reprojection error

A shallow embedding of `python_bindings/ceres_examples_module.cpp`.

* A C `int` is an integer (`Int`). The only arithmetic of the module on
  `int` values is `9 * num_cameras_ + 3 * num_points_`, `2 * num_observations_`
  and the offsets of the blocks; values beyond the range of `int`, where that
  arithmetic is undefined in C++, are outside the model. `LoadFile` keeps an
  integer that `%d` reads as it is written; `LoadFileVia fscanf_d_int` is the
  same method with every integer read stored as a 32-bit `int`.
* A `double` is a value of an arbitrary type `D`; the text of a matched `%lf`
  literal is turned into a `D` by a conversion `strtod`, which the loader
  treats as a black box.
* A heap array (`new T[n]`) is a `List`; a pointer into `parameters_` is the
  offset of its first element.
* An open `FILE*` is the list of characters that are still unread.
-/

set_option autoImplicit false

/-! ## The C library: `isspace`, `isdigit` and the `fscanf` conversions -/

/-- The `isspace` test of the C locale: space, `\t`, `\n`, `\v`, `\f`, `\r`. -/
def isspace (c : Char) : Bool :=
  c = ' ' || c = '\t' || c = '\n' || c = Char.ofNat 11 || c = Char.ofNat 12 || c = '\r'

/-- The `isdigit` test: `0` to `9`. -/
def isdigit (c : Char) : Bool :=
  '0' ≤ c && c ≤ '9'

/-- Is the character a sign, `+` or `-`. -/
def issign (c : Char) : Bool :=
  c = '+' || c = '-'

/-- Is the character an exponent marker, `e` or `E`. -/
def isexp (c : Char) : Bool :=
  c = 'e' || c = 'E'

/-- Skipping of white space, which `%d` and `%lf` do before they convert. -/
def skipWs (s : List Char) : List Char :=
  s.dropWhile isspace

/-- The value of a run of decimal digits, most significant first. -/
def digitsValue (ds : List Char) : Nat :=
  ds.foldl (fun a c => 10 * a + (c.toNat - 48)) 0

/-- An optional sign at the head of the input: the sign read (as text) and
the input after it. -/
def optSign : List Char → List Char × List Char
  | [] => ([], [])
  | c :: t => if issign c then ([c], t) else ([], c :: t)

/-- The directive `%d` of `fscanf`: white space is skipped, then an optional
sign and a non-empty run of decimal digits are consumed. The result is the
integer and the unread input; `none` stands for a return value other than 1
(`EOF` at the end of the input, 0 when no digit is found). -/
def fscanf_d (s : List Char) : Option (Int × List Char) :=
  let (sg, s1) := optSign (skipWs s)
  let ds := s1.takeWhile isdigit
  if ds = [] then none
  else
    let n : Int := digitsValue ds
    some (if sg = ['-'] then -n else n, s1.dropWhile isdigit)

/-- The fraction of a decimal floating literal: a `.` and the digits after
it, when the input starts with a `.`. -/
def fracPart : List Char → List Char × List Char
  | [] => ([], [])
  | c :: t => if c = '.' then (c :: t.takeWhile isdigit, t.dropWhile isdigit) else ([], c :: t)

/-- The exponent of a decimal floating literal: `e` or `E`, an optional sign
and a non-empty run of digits. `none` when an exponent marker is followed by
no digit (the item read is then not a floating literal); an input that does
not start with a marker has the empty exponent. -/
def expPart : List Char → Option (List Char × List Char)
  | [] => some ([], [])
  | c :: t =>
    if isexp c then
      let (sg, t1) := optSign t
      let ds := t1.takeWhile isdigit
      if ds = [] then none else some (c :: sg ++ ds, t1.dropWhile isdigit)
    else some ([], c :: t)

/-- The decimal floating literal at the head of the input, as `%lf` matches
it (no white space is skipped here): an optional sign, digits with an
optional fraction (at least one digit in all), an optional exponent. The
result is the text matched and the unread input. Hexadecimal literals, the
words `inf` and `nan` and an exponent marker without digits are not part of
this model: `none` on an input that starts with one of them is no statement
about the C library. -/
def matchFloat (s : List Char) : Option (List Char × List Char) :=
  let (sg, s1) := optSign s
  let ip := s1.takeWhile isdigit
  let (fp, s3) := fracPart (s1.dropWhile isdigit)
  if ip = [] ∧ fp.length ≤ 1 then none
  else
    match expPart s3 with
    | none => none
    | some (ep, s4) => some (sg ++ ip ++ fp ++ ep, s4)

/-- The directive `%lf` of `fscanf`: white space is skipped, a decimal
floating literal is consumed and converted by `strtod`. `none` stands for a
return value other than 1. -/
def fscanf_lf {D : Type} (strtod : List Char → D) (s : List Char) : Option (D × List Char) :=
  match matchFloat (skipWs s) with
  | none => none
  | some (lit, rest) => some (strtod lit, rest)

/-! ## Faults and loops -/

/-- The ways in which an operation of the module ends without a result:
`LOG(FATAL)` aborts the process, `new T[n]` throws for a negative `n`, and
an access outside an array is undefined. -/
inductive Fault where
  | fatal
  | bad_array_new_length
  | out_of_bounds
  deriving DecidableEq, Repr

/-- The loop `for (int i = start; ...; ++i) body` run for `count` iterations. -/
def forLoopFrom {σ : Type} (body : Nat → σ → Except Fault σ) :
    Nat → Nat → σ → Except Fault σ
  | 0, _, s => pure s
  | count + 1, i, s => body i s >>= forLoopFrom body count (i + 1)

/-- The loop `for (int i = 0; i < n; ++i) body`. -/
def forLoop {σ : Type} (n : Int) (body : Nat → σ → Except Fault σ) (s : σ) : Except Fault σ :=
  forLoopFrom body n.toNat 0 s

/-- The expression `new T[n]`: an array of `n` cells of indeterminate
content (here `default`), or `std::bad_array_new_length` for a negative `n`. -/
def newArray {α : Type} [Inhabited α] (n : Int) : Except Fault (List α) :=
  if n < 0 then throw Fault.bad_array_new_length else pure (List.replicate n.toNat default)

/-- The read `a[i]` of an array cell. -/
def arrayGet {α : Type} (a : List α) (i : Int) : Except Fault α :=
  if i < 0 then throw Fault.out_of_bounds
  else
    match a[i.toNat]? with
    | some v => pure v
    | none => throw Fault.out_of_bounds

/-! ## `class BALProblem` -/

/-- The data members of `BALProblem`. -/
structure BALProblem (D : Type) where
  num_cameras_ : Int
  num_points_ : Int
  num_observations_ : Int
  num_parameters_ : Int
  point_index_ : List Int
  camera_index_ : List Int
  observations_ : List D
  parameters_ : List D
  deriving DecidableEq, Repr

namespace BALProblem

variable {D : Type}

/-- The method `num_observations()`. -/
def num_observations (self : BALProblem D) : Int :=
  self.num_observations_

/-- The method `observations()`: the array `observations_`. -/
def observations (self : BALProblem D) : List D :=
  self.observations_

/-- The method `mutable_cameras()`: the pointer `parameters_`, as an offset
into `parameters_`. -/
def mutable_cameras (_self : BALProblem D) : Int :=
  0

/-- The method `mutable_points()`: the pointer `parameters_ + 9 * num_cameras_`. -/
def mutable_points (self : BALProblem D) : Int :=
  9 * self.num_cameras_

/-- The method `mutable_camera_for_observation(i)`: the pointer
`mutable_cameras() + camera_index_[i] * 9`. -/
def mutable_camera_for_observation (self : BALProblem D) (i : Int) : Except Fault Int := do
  let c ← arrayGet self.camera_index_ i
  pure (self.mutable_cameras + c * 9)

/-- The method `mutable_point_for_observation(i)`: the pointer
`mutable_points() + point_index_[i] * 3`. -/
def mutable_point_for_observation (self : BALProblem D) (i : Int) : Except Fault Int := do
  let p ← arrayGet self.point_index_ i
  pure (self.mutable_points + p * 3)

/-- The read `ptr[k]` through a pointer `ptr` into `parameters_`. -/
def deref (self : BALProblem D) (ptr : Int) (k : Int) : Except Fault D :=
  arrayGet self.parameters_ (ptr + k)

/-- The write `ptr[k] = v` through a pointer `ptr` into `parameters_`. -/
def assign (self : BALProblem D) (ptr : Int) (k : Int) (v : D) : Except Fault (BALProblem D) :=
  if ptr + k < 0 ∨ (self.parameters_.length : Int) ≤ ptr + k then throw Fault.out_of_bounds
  else pure { self with parameters_ := self.parameters_.set (ptr + k).toNat v }

/-- The method `FscanfOrDie(fptr, format, value)`: one conversion by
`fscanf`, the directive `format` being given as its scanner; `LOG(FATAL)`
unless exactly one item was converted. The result is the value stored
through `value` and the unread input. -/
def FscanfOrDie {T : Type} (format : List Char → Option (T × List Char)) (fptr : List Char) :
    Except Fault (T × List Char) :=
  match format fptr with
  | some r => pure r
  | none => throw Fault.fatal

/-- The body of the first loop of `LoadFile`, for the observation `i`. -/
def readObservation (strtod : List Char → D) (i : Nat) (st : BALProblem D × List Char) :
    Except Fault (BALProblem D × List Char) := do
  let (self, fptr) := st
  let (c, fptr) ← FscanfOrDie fscanf_d fptr
  let self := { self with camera_index_ := self.camera_index_.set i c }
  let (p, fptr) ← FscanfOrDie fscanf_d fptr
  let self := { self with point_index_ := self.point_index_.set i p }
  forLoop 2 (fun j (st : BALProblem D × List Char) => do
    let (self, fptr) := st
    let (x, fptr) ← FscanfOrDie (fscanf_lf strtod) fptr
    pure ({ self with observations_ := self.observations_.set (2 * i + j) x }, fptr)) (self, fptr)

/-- The body of the second loop of `LoadFile`, for the parameter `i`. -/
def readParameter (strtod : List Char → D) (i : Nat) (st : BALProblem D × List Char) :
    Except Fault (BALProblem D × List Char) := do
  let (self, fptr) := st
  let (x, fptr) ← FscanfOrDie (fscanf_lf strtod) fptr
  pure ({ self with parameters_ := self.parameters_.set i x }, fptr)

/-- The method `LoadFile(filename)`. The argument `file` is what `fopen`
finds: `none` when the file cannot be opened, else its content. The result
is the value returned and the object after the call. -/
def LoadFile [Inhabited D] (strtod : List Char → D) (self : BALProblem D)
    (file : Option (List Char)) : Except Fault (Bool × BALProblem D) :=
  match file with
  | none => pure (false, self)
  | some fptr => do
    let (nc, fptr) ← FscanfOrDie fscanf_d fptr
    let self := { self with num_cameras_ := nc }
    let (np, fptr) ← FscanfOrDie fscanf_d fptr
    let self := { self with num_points_ := np }
    let (no, fptr) ← FscanfOrDie fscanf_d fptr
    let self := { self with num_observations_ := no }
    let a ← newArray self.num_observations_
    let self := { self with point_index_ := a }
    let a ← newArray self.num_observations_
    let self := { self with camera_index_ := a }
    let a ← newArray (2 * self.num_observations_)
    let self := { self with observations_ := a }
    let self := { self with num_parameters_ := 9 * self.num_cameras_ + 3 * self.num_points_ }
    let a ← newArray self.num_parameters_
    let self := { self with parameters_ := a }
    let (self, fptr) ← forLoop self.num_observations_ (readObservation strtod) (self, fptr)
    let (self, _) ← forLoop self.num_parameters_ (readParameter strtod) (self, fptr)
    pure (true, self)

end BALProblem

/-- The object that `py::init<>()` makes: every data member zero. -/
def BALProblem.init (D : Type) : BALProblem D :=
  { num_cameras_ := 0, num_points_ := 0, num_observations_ := 0, num_parameters_ := 0,
    point_index_ := [], camera_index_ := [], observations_ := [], parameters_ := [] }

/-! ## The lambdas bound to Python in `add_pybinded_ceres_examples` -/

namespace add_pybinded_ceres_examples

variable {D : Type}

/-- The statement `double_data.push_back(ptr[k])`. -/
def push_back (myself : BALProblem D) (ptr : Int) (k : Int) (double_data : List D) :
    Except Fault (List D) := do
  let x ← myself.deref ptr k
  pure (double_data ++ [x])

/-- The lambda bound as `observations`. -/
def observations (myself : BALProblem D) : Except Fault (List D) :=
  forLoop myself.num_observations (fun idx double_data => do
    let x ← arrayGet myself.observations (2 * idx + 0)
    let double_data := double_data ++ [x]
    let y ← arrayGet myself.observations (2 * idx + 1)
    pure (double_data ++ [y])) []

/-- The lambda bound as `cameras`. -/
def cameras (myself : BALProblem D) : Except Fault (List D) :=
  forLoop myself.num_cameras_ (fun idx double_data => do
    let double_data ← push_back myself myself.mutable_cameras (9 * idx + 0) double_data
    let double_data ← push_back myself myself.mutable_cameras (9 * idx + 1) double_data
    let double_data ← push_back myself myself.mutable_cameras (9 * idx + 2) double_data
    let double_data ← push_back myself myself.mutable_cameras (9 * idx + 3) double_data
    let double_data ← push_back myself myself.mutable_cameras (9 * idx + 4) double_data
    let double_data ← push_back myself myself.mutable_cameras (9 * idx + 5) double_data
    let double_data ← push_back myself myself.mutable_cameras (9 * idx + 6) double_data
    let double_data ← push_back myself myself.mutable_cameras (9 * idx + 7) double_data
    push_back myself myself.mutable_cameras (9 * idx + 8) double_data) []

/-- The lambda bound as `points`. -/
def points (myself : BALProblem D) : Except Fault (List D) :=
  forLoop myself.num_points_ (fun idx double_data => do
    let double_data ← push_back myself myself.mutable_points (9 * idx + 0) double_data
    let double_data ← push_back myself myself.mutable_points (9 * idx + 1) double_data
    push_back myself myself.mutable_points (9 * idx + 2) double_data) []

/-- The lambda bound as `mutable_cameras_for_observation`. -/
def mutable_cameras_for_observation (myself : BALProblem D) (i : Int) : Except Fault (List D) := do
  let c ← arrayGet myself.camera_index_ i
  let ptr := myself.mutable_cameras + c * 9
  forLoop 9 (fun idx double_data => push_back myself ptr idx double_data) []

/-- The lambda bound as `mutable_point_for_observation`. -/
def mutable_point_for_observation (myself : BALProblem D) (i : Int) : Except Fault (List D) := do
  let p ← arrayGet myself.point_index_ i
  let ptr := myself.mutable_points + p * 3
  forLoop 3 (fun idx double_data => push_back myself ptr idx double_data) []

/-- The lambda bound as `camera_index`. -/
def camera_index (myself : BALProblem D) (i : Int) : Except Fault Int :=
  arrayGet myself.camera_index_ i

/-- The lambda bound as `point_index`. -/
def point_index (myself : BALProblem D) (i : Int) : Except Fault Int :=
  arrayGet myself.point_index_ i

end add_pybinded_ceres_examples

/-! ## `struct SnavelyReprojectionError` -/

/-- The data members of `SnavelyReprojectionError`. -/
structure SnavelyReprojectionError (K : Type) where
  observed_x : K
  observed_y : K

/-- The first three entries of a camera block, which `AngleAxisRotatePoint`
reads through the pointer `camera`. -/
def angleAxisOf {K : Type} (camera : Fin 9 → K) : Fin 3 → K :=
  fun i => camera (Fin.castLE (by decide) i)

/-- The templated `operator()` of `SnavelyReprojectionError`, over a field
`K`. The library function `ceres::AngleAxisRotatePoint` is a parameter: it
maps an angle-axis vector and a point to the rotated point. The result is
the value returned and the array `residuals`. -/
def SnavelyReprojectionError.operator_call {K : Type} [Field K]
    (AngleAxisRotatePoint : (Fin 3 → K) → (Fin 3 → K) → (Fin 3 → K))
    (self : SnavelyReprojectionError K) (camera : Fin 9 → K) (point : Fin 3 → K) :
    Bool × (Fin 2 → K) :=
  let p := AngleAxisRotatePoint (angleAxisOf camera) point
  let p0 := p 0 + camera 3
  let p1 := p 1 + camera 4
  let p2 := p 2 + camera 5
  let xp := -p0 / p2
  let yp := -p1 / p2
  let l1 := camera 7
  let l2 := camera 8
  let r2 := xp * xp + yp * yp
  let distortion := 1 + r2 * (l1 + l2 * r2)
  let focal := camera 6
  let predicted_x := focal * distortion * xp
  let predicted_y := focal * distortion * yp
  (true, ![predicted_x - self.observed_x, predicted_y - self.observed_y])

/-! ## Notions used to state the properties -/

/-- The transformed point of the camera model: the rotated point plus the
translation `camera[3..5]`. -/
def transformed {K : Type} [Field K]
    (rotate : (Fin 3 → K) → (Fin 3 → K) → (Fin 3 → K))
    (c : Fin 9 → K) (X : Fin 3 → K) : Fin 3 → K :=
  ![rotate (angleAxisOf c) X 0 + c 3, rotate (angleAxisOf c) X 1 + c 4,
    rotate (angleAxisOf c) X 2 + c 5]

/-- A camera block with no rotation, translation `(0, 0, -5)`, focal length 2
and distortion `(1, 0)`. -/
def sampleCamera : Fin 9 → ℚ :=
  fun i => if i = 5 then -5 else if i = 6 then 2 else if i = 7 then 1 else 0

/-- A point off the optical axis. -/
def samplePoint : Fin 3 → ℚ :=
  ![5, 10, 0]

/-- The identity rotation. -/
def noRotation : (Fin 3 → ℚ) → (Fin 3 → ℚ) → (Fin 3 → ℚ) :=
  fun _ X => X

section

variable {D : Type}

/-- The object right after the allocations of `LoadFile`, the three counts
being `nc`, `np` and `no`. -/
def allocated [Inhabited D] (nc np no : Int) : BALProblem D :=
  { num_cameras_ := nc, num_points_ := np, num_observations_ := no,
    num_parameters_ := 9 * nc + 3 * np,
    point_index_ := List.replicate no.toNat default,
    camera_index_ := List.replicate no.toNat default,
    observations_ := List.replicate (2 * no).toNat default,
    parameters_ := List.replicate (9 * nc + 3 * np).toNat default }

/-- The counts and array lengths of an object whose three counts are `nc`,
`np`, `no` and whose arrays have the lengths that `LoadFile` allocates. -/
def Shape (nc np no : Int) (s : BALProblem D) : Prop :=
  s.num_cameras_ = nc ∧ s.num_points_ = np ∧ s.num_observations_ = no ∧
  s.num_parameters_ = 9 * nc + 3 * np ∧
  s.point_index_.length = no.toNat ∧ s.camera_index_.length = no.toNat ∧
  s.observations_.length = (2 * no).toNat ∧
  s.parameters_.length = (9 * nc + 3 * np).toNat

end

section

variable {D : Type}

/-- A loaded dataset: the object after a `LoadFile` that returned `true`,
the counts of cameras and points read from the file being non-negative, as
the counts of a dataset are. (The count of observations of such an object is
never negative: a negative one makes the first allocation throw.) -/
def LoadedDataset [Inhabited D] (strtod : List Char → D) (s : BALProblem D) : Prop :=
  ∃ (self : BALProblem D) (file : Option (List Char)),
    BALProblem.LoadFile strtod self file = Except.ok (true, s) ∧
    0 ≤ s.num_cameras_ ∧ 0 ≤ s.num_points_

end

/-- A dataset file: one camera, two points, two observations. -/
def sampleFile : List Char :=
  "1 2 2\n0 1 -3.5 4.25\n0 0 1e2 .5\n0.1 0.2 0.3 0.4 0.5 0.6 0.7 0.8 0.9\n1.1 1.2 1.3\n2.1 2.2 2.3\n".toList

/-- The object that `LoadFile` makes of `sampleFile`, a `double` being kept
as the text of its literal. -/
def sampleDataset : BALProblem (List Char) :=
  { num_cameras_ := 1, num_points_ := 2, num_observations_ := 2, num_parameters_ := 15,
    point_index_ := [1, 0], camera_index_ := [0, 0],
    observations_ := ["-3.5".toList, "4.25".toList, "1e2".toList, ".5".toList],
    parameters_ := ["0.1".toList, "0.2".toList, "0.3".toList, "0.4".toList, "0.5".toList,
      "0.6".toList, "0.7".toList, "0.8".toList, "0.9".toList, "1.1".toList, "1.2".toList,
      "1.3".toList, "2.1".toList, "2.2".toList, "2.3".toList] }

/-- A dataset file whose only observation names camera 1 and point 7, while
it has one camera (index 0) and three points (indices 0 to 2). -/
def strayFile : List Char :=
  "1 3 1\n1 7 0.5 0.5\n1 2 3 4 5 6 7 8 9\n10 11 12\n13 14 15\n16 17 18\n".toList

/-- The object that `LoadFile` makes of `strayFile`. -/
def strayDataset : BALProblem (List Char) :=
  { num_cameras_ := 1, num_points_ := 3, num_observations_ := 1, num_parameters_ := 18,
    point_index_ := [7], camera_index_ := [1],
    observations_ := ["0.5".toList, "0.5".toList],
    parameters_ := ["1".toList, "2".toList, "3".toList, "4".toList, "5".toList, "6".toList,
      "7".toList, "8".toList, "9".toList, "10".toList, "11".toList, "12".toList, "13".toList,
      "14".toList, "15".toList, "16".toList, "17".toList, "18".toList] }

/-! ## The text of a dataset file -/

/-- The decimal text of an integer, as `printf("%d")` prints it. -/
def writeInt (z : Int) : List Char :=
  if z < 0 then '-' :: Nat.toDigits 10 z.natAbs else Nat.toDigits 10 z.toNat

/-- Is the text a decimal floating literal: `%lf` matches all of it. -/
def isFloatLit (t : List Char) : Bool :=
  matchFloat t = some (t, [])

/-- A token of a dataset file: an integer, or the text of a floating literal. -/
inductive Tok where
  | int (z : Int)
  | flt (t : List Char)
  deriving DecidableEq, Repr

/-- The text of a token. -/
def Tok.text : Tok → List Char
  | Tok.int z => writeInt z
  | Tok.flt t => t

/-- The text of a list of tokens, each followed by its separator. -/
def render : List (Tok × Char) → List Char
  | [] => []
  | (t, w) :: r => t.text ++ w :: render r

/-- An observation record of a dataset file: camera index, point index and
the literals of the two pixel coordinates. -/
structure Record where
  cam : Int
  pt : Int
  x : List Char
  y : List Char
  deriving DecidableEq, Repr

/-- The tokens of the header line `nc np no`. -/
def headerToks (nc np no : Nat) : List (Tok × Char) :=
  [(Tok.int nc, ' '), (Tok.int np, ' '), (Tok.int no, '\n')]

/-- The tokens of the observation lines `cam pt x y`. -/
def recordToks : List Record → List (Tok × Char)
  | [] => []
  | r :: rs =>
    (Tok.int r.cam, ' ') :: (Tok.int r.pt, ' ') :: (Tok.flt r.x, ' ') :: (Tok.flt r.y, '\n')
      :: recordToks rs

/-- The tokens of the parameter lines, one value on each. -/
def valueToks : List (List Char) → List (Tok × Char)
  | [] => []
  | t :: ts => (Tok.flt t, '\n') :: valueToks ts

/-- The tokens of the dataset file with the counts `nc` and `np`, the
observation records `recs` and the parameter values `v`. -/
def datasetToks (nc np : Nat) (recs : List Record) (v : List (List Char)) : List (Tok × Char) :=
  headerToks nc np recs.length ++ (recordToks recs ++ valueToks v)

/-- The text of the dataset file with the counts `nc` and `np`, the
observation records `recs` and the parameter values `v`. -/
def writeDataset (nc np : Nat) (recs : List Record) (v : List (List Char)) : List Char :=
  render (datasetToks nc np recs v)

/-- Every pixel coordinate of the records and every parameter value is a
floating literal. -/
def WellFormed (recs : List Record) (v : List (List Char)) : Prop :=
  (∀ r ∈ recs, isFloatLit r.x = true ∧ isFloatLit r.y = true) ∧ ∀ t ∈ v, isFloatLit t = true

/-- An input on which no conversion can succeed: after its white space it
ends, or goes on with a character with which neither an integer nor a
floating literal starts: no digit, no sign, no point, and neither of the
letters `i` and `n`, with which the words `inf` and `nan` start. -/
def Dead (junk : List Char) : Prop :=
  match skipWs junk with
  | [] => True
  | c :: _ => isdigit c = false ∧ issign c = false ∧ c ≠ '.' ∧
      c ≠ 'i' ∧ c ≠ 'I' ∧ c ≠ 'n' ∧ c ≠ 'N'

/-- The object that a dataset file describes: the counts, the indices of the
records, the converted pixel coordinates and parameter values. -/
def datasetOf {D : Type} (strtod : List Char → D) (nc np : Nat) (recs : List Record)
    (v : List (List Char)) : BALProblem D :=
  { num_cameras_ := nc, num_points_ := np, num_observations_ := recs.length,
    num_parameters_ := 9 * nc + 3 * np,
    point_index_ := recs.map Record.pt, camera_index_ := recs.map Record.cam,
    observations_ := recs.flatMap (fun r => [strtod r.x, strtod r.y]),
    parameters_ := v.map strtod }

/-- The records of `sampleFile`. -/
def sampleRecords : List Record :=
  [⟨0, 1, "-3.5".toList, "4.25".toList⟩, ⟨0, 0, "1e2".toList, ".5".toList⟩]

/-- The parameter values of `sampleFile`. -/
def sampleValues : List (List Char) :=
  ["0.1".toList, "0.2".toList, "0.3".toList, "0.4".toList, "0.5".toList,
   "0.6".toList, "0.7".toList, "0.8".toList, "0.9".toList, "1.1".toList, "1.2".toList,
   "1.3".toList, "2.1".toList, "2.2".toList, "2.3".toList]

/-- Every character of the text is white space. -/
def AllWs (pre : List Char) : Prop :=
  ∀ c ∈ pre, isspace c = true

section

variable {D : Type}

/-- The object after the body of the first loop has stored the record `r` as
observation `i`. -/
def storeRecord (strtod : List Char → D) (i : Nat) (r : Record) (s : BALProblem D) :
    BALProblem D :=
  { s with
    camera_index_ := s.camera_index_.set i r.cam,
    point_index_ := s.point_index_.set i r.pt,
    observations_ := (s.observations_.set (2 * i + 0) (strtod r.x)).set (2 * i + 1) (strtod r.y) }

end

/-- The white-space delimited tokens of a text. -/
def wsTokens (s : List Char) : List (List Char) :=
  (s.splitOnP isspace).filter (fun t => t ≠ [])

/-- Is the text an integer literal: `%d` consumes all of it. -/
def isIntLit (t : List Char) : Bool :=
  match fscanf_d t with
  | some (_, rest) => rest = [] && skipWs t = t
  | none => false

/-- A file that declares one observation and no camera and no point, so that
`3 + 4 * 1 + 9 * 0 + 3 * 0 = 7` tokens are required, and has six tokens, the
fifth of which, in the place of the point index, is `0.5`. -/
def shortFile : List Char :=
  "0 0 1\n0 0.5 1.0\n".toList

/-! ## `struct HelloWorldCostFunctor` and the cost function factories -/

/-- The struct `HelloWorldCostFunctor`, which has no data member. -/
structure HelloWorldCostFunctor where
  deriving DecidableEq, Repr

/-- The templated `operator()` of `HelloWorldCostFunctor`, over a ring `T`:
the value returned and the array `residual`. -/
def HelloWorldCostFunctor.operator_call {T : Type} [Ring T] (_self : HelloWorldCostFunctor)
    (x : Fin 1 → T) : Bool × (Fin 1 → T) :=
  (true, ![10 - x 0])

/-- What the module fixes of a `ceres::AutoDiffCostFunction<F, kNumResiduals, Ns...>`:
the functor it owns and its template arguments, the number of residuals and
the sizes of the parameter blocks. -/
structure AutoDiffCostFunction (F : Type) where
  functor : F
  kNumResiduals : Nat
  Ns : List Nat

/-- The function `CreateHelloWorldCostFunction()`. -/
def CreateHelloWorldCostFunction : AutoDiffCostFunction HelloWorldCostFunctor :=
  { functor := {}, kNumResiduals := 1, Ns := [1] }

/-- The factory `SnavelyReprojectionError::Create(observed_x, observed_y)`. -/
def SnavelyReprojectionError.Create {K : Type} (observed_x observed_y : K) :
    AutoDiffCostFunction (SnavelyReprojectionError K) :=
  { functor := { observed_x := observed_x, observed_y := observed_y },
    kNumResiduals := 2, Ns := [9, 3] }

/-- Does the fault reach the caller as an error. `LOG(FATAL)` ends the
process with a message and `std::bad_array_new_length` is thrown; an access
outside an array is undefined behaviour, for which the module raises nothing. -/
def Fault.isError : Fault → Bool
  | Fault.fatal => true
  | Fault.bad_array_new_length => true
  | Fault.out_of_bounds => false

section CameraNotions

variable {K : Type} [Field K]

/-- The normalised image coordinates `(xp, yp)` of the camera model:
`xp = -p[0] / p[2]`, `yp = -p[1] / p[2]` for the transformed point `p`. -/
def projection (rotate : (Fin 3 → K) → (Fin 3 → K) → (Fin 3 → K))
    (c : Fin 9 → K) (X : Fin 3 → K) : Fin 2 → K :=
  ![-transformed rotate c X 0 / transformed rotate c X 2,
    -transformed rotate c X 1 / transformed rotate c X 2]

/-- The predicted pixel `(predicted_x, predicted_y)` of the camera model: the
residual that the operator gives for the observed pixel `(0, 0)`. -/
def predicted (rotate : (Fin 3 → K) → (Fin 3 → K) → (Fin 3 → K))
    (c : Fin 9 → K) (X : Fin 3 → K) : Fin 2 → K :=
  (SnavelyReprojectionError.operator_call rotate ⟨0, 0⟩ c X).2

/-- The camera block with no rotation, translation `(0, 0, -5)`, focal length
1 and distortion `(0, 0)`. -/
def axisCamera : Fin 9 → K :=
  fun i => if i = 5 then -5 else if i = 6 then 1 else 0

/-- The point `(0, 0, 0)`. -/
def origin : Fin 3 → K :=
  fun _ => 0

/-- The camera block `c` with its translation `c[3..5]` multiplied by `s`. -/
def scaleTranslation (s : K) (c : Fin 9 → K) : Fin 9 → K :=
  fun i => if i = 3 ∨ i = 4 ∨ i = 5 then s * c i else c i

/-- A rotation of first order in the angle-axis vector `w`: the point `X`
goes to `X + w × X`. It is linear in `X` and the identity for `w = 0`. -/
def firstOrderRotate (w X : Fin 3 → K) : Fin 3 → K :=
  ![X 0 + (w 1 * X 2 - w 2 * X 1), X 1 + (w 2 * X 0 - w 0 * X 2),
    X 2 + (w 0 * X 1 - w 1 * X 0)]

end CameraNotions

/-- A camera block with no rotation, translation `(-1, -2, 3)`, focal length
2 and distortion `(1, 1)`. -/
def shiftedCamera : Fin 9 → ℚ :=
  fun i => if i = 3 then -1 else if i = 4 then -2 else if i = 5 then 3
    else if i = 6 then 2 else if i = 7 then 1 else if i = 8 then 1 else 0

/-- A point that `shiftedCamera` sees on its optical axis. -/
def shiftedPoint : Fin 3 → ℚ :=
  ![1, 2, 4]

/-- A camera block with the rotation vector `(0, 0, 1)`, no translation,
focal length 3 and no distortion. -/
def turnedCamera : Fin 9 → ℚ :=
  fun i => if i = 2 then 1 else if i = 6 then 3 else 0

/-- The point `(1, 1, -10)`. -/
def farPoint : Fin 3 → ℚ :=
  ![1, 1, -10]

/-- A camera block with the rotation vector `(0, 0, 1)`, translation
`(1, 2, 3)`, focal length 2 and distortion `(1, 1)`. -/
def obliqueCamera : Fin 9 → ℚ :=
  fun i => if i = 2 then 1 else if i = 3 then 1 else if i = 4 then 2 else if i = 5 then 3
    else if i = 6 then 2 else if i = 7 then 1 else if i = 8 then 1 else 0

/-- A file that declares two cameras, a negative number of points and one
observation, of camera 1: `9 * 2 + 3 * (-3) = 9` parameters. -/
def negPointsFile : List Char :=
  "2 -3 1\n1 0 0.5 0.5\n1 2 3 4 5 6 7 8 9\n".toList

/-- The object that `LoadFile` makes of `negPointsFile`. -/
def negPointsDataset : BALProblem (List Char) :=
  { num_cameras_ := 2, num_points_ := -3, num_observations_ := 1, num_parameters_ := 9,
    point_index_ := [0], camera_index_ := [1],
    observations_ := ["0.5".toList, "0.5".toList],
    parameters_ := ["1".toList, "2".toList, "3".toList, "4".toList, "5".toList, "6".toList,
      "7".toList, "8".toList, "9".toList] }

/-- A file that declares a negative number of cameras, six points and one
observation, of point 0: `9 * (-1) + 3 * 6 = 9` parameters. -/
def negCamerasFile : List Char :=
  "-1 6 1\n0 0 0.5 0.5\n1 2 3 4 5 6 7 8 9\n".toList

/-- The object that `LoadFile` makes of `negCamerasFile`. -/
def negCamerasDataset : BALProblem (List Char) :=
  { num_cameras_ := -1, num_points_ := 6, num_observations_ := 1, num_parameters_ := 9,
    point_index_ := [0], camera_index_ := [0],
    observations_ := ["0.5".toList, "0.5".toList],
    parameters_ := ["1".toList, "2".toList, "3".toList, "4".toList, "5".toList, "6".toList,
      "7".toList, "8".toList, "9".toList] }

/-! ## The conversion `%d` into a 32-bit `int` -/

/-- The `int` that `%d` stores for the integer `z` that it has read. The C
library converts the digits with `strtol`, which keeps the result within the
range of `long` (64 bits), and stores the low 32 bits of it as an `int`. -/
def storedInt (z : Int) : Int :=
  let l : Int := max (-9223372036854775808) (min z 9223372036854775807)
  (l + 2147483648) % 4294967296 - 2147483648

/-- The directive `%d` of `fscanf` with an `int` as its target: the integer
read by `fscanf_d`, as the `int` stores it. -/
def fscanf_d_int (s : List Char) : Option (Int × List Char) :=
  match fscanf_d s with
  | none => none
  | some (z, rest) => some (storedInt z, rest)

/-- Is the integer a value of the type `int`. -/
def FitsInt (z : Int) : Prop :=
  -2147483648 ≤ z ∧ z ≤ 2147483647

namespace BALProblem

variable {D : Type}

/-- The body of the first loop of `LoadFile`, for the observation `i`, the
conversion `%d` being `scan_d`. For `scan_d = fscanf_d` it is `readObservation`. -/
def readObservationVia (scan_d : List Char → Option (Int × List Char))
    (strtod : List Char → D) (i : Nat) (st : BALProblem D × List Char) :
    Except Fault (BALProblem D × List Char) := do
  let (self, fptr) := st
  let (c, fptr) ← FscanfOrDie scan_d fptr
  let self := { self with camera_index_ := self.camera_index_.set i c }
  let (p, fptr) ← FscanfOrDie scan_d fptr
  let self := { self with point_index_ := self.point_index_.set i p }
  forLoop 2 (fun j (st : BALProblem D × List Char) => do
    let (self, fptr) := st
    let (x, fptr) ← FscanfOrDie (fscanf_lf strtod) fptr
    pure ({ self with observations_ := self.observations_.set (2 * i + j) x }, fptr)) (self, fptr)

/-- The method `LoadFile(filename)`, the conversion `%d` being `scan_d`. For
`scan_d = fscanf_d` it is `LoadFile`, which keeps every integer as it is
written; for `scan_d = fscanf_d_int` every integer read is stored as a 32-bit
`int`. The sizes `2 * num_observations_` and `9 * num_cameras_ + 3 * num_points_`
are computed exactly. -/
def LoadFileVia [Inhabited D] (scan_d : List Char → Option (Int × List Char))
    (strtod : List Char → D) (self : BALProblem D)
    (file : Option (List Char)) : Except Fault (Bool × BALProblem D) :=
  match file with
  | none => pure (false, self)
  | some fptr => do
    let (nc, fptr) ← FscanfOrDie scan_d fptr
    let self := { self with num_cameras_ := nc }
    let (np, fptr) ← FscanfOrDie scan_d fptr
    let self := { self with num_points_ := np }
    let (no, fptr) ← FscanfOrDie scan_d fptr
    let self := { self with num_observations_ := no }
    let a ← newArray self.num_observations_
    let self := { self with point_index_ := a }
    let a ← newArray self.num_observations_
    let self := { self with camera_index_ := a }
    let a ← newArray (2 * self.num_observations_)
    let self := { self with observations_ := a }
    let self := { self with num_parameters_ := 9 * self.num_cameras_ + 3 * self.num_points_ }
    let a ← newArray self.num_parameters_
    let self := { self with parameters_ := a }
    let (self, fptr) ← forLoop self.num_observations_ (readObservationVia scan_d strtod)
      (self, fptr)
    let (self, _) ← forLoop self.num_parameters_ (readParameter strtod) (self, fptr)
    pure (true, self)

end BALProblem

/-- The record `r` with its two indices as an `int` stores them. -/
def storedRecord (r : Record) : Record :=
  { r with cam := storedInt r.cam, pt := storedInt r.pt }

/-- A dataset file with one observation, whose camera index is `2^31`. -/
def wideIndexFile : List Char :=
  "0 0 1\n2147483648 0 0.5 0.5\n".toList

/-! # Theorems -/

/-! ## Claim C1: the reprojection residual in closed form -/

/-- C1: with `p = rotate(c[0..2], X) + c[3..5]` and `p[2] ≠ 0`, the operator
returns `true` and the two residuals are
`c[6] * (1 + r2 * (c[7] + c[8] * r2)) * xp - ox` and the same with `yp`, `oy`,
where `xp = -p[0]/p[2]`, `yp = -p[1]/p[2]`, `r2 = xp*xp + yp*yp`. -/
theorem snavely_residual_closed_form {K : Type} [Field K]
    (rotate : (Fin 3 → K) → (Fin 3 → K) → (Fin 3 → K))
    (c : Fin 9 → K) (X : Fin 3 → K) (ox oy : K)
    (_hp : transformed rotate c X 2 ≠ 0) :
    let p := transformed rotate c X
    let xp := -p 0 / p 2
    let yp := -p 1 / p 2
    let r2 := xp * xp + yp * yp
    SnavelyReprojectionError.operator_call rotate ⟨ox, oy⟩ c X =
      (true, ![c 6 * (1 + r2 * (c 7 + c 8 * r2)) * xp - ox,
               c 6 * (1 + r2 * (c 7 + c 8 * r2)) * yp - oy]) := by
  intro p xp yp r2
  simp only [SnavelyReprojectionError.operator_call, p, xp, yp, r2, transformed,
    Matrix.cons_val_zero, Matrix.cons_val_one, Matrix.head_cons, Matrix.cons_val_two,
    Matrix.tail_cons]

/-- The closed form of C1 at `sampleCamera`, `samplePoint` and the pixel
`(1, 2)`: the residual is `(11, 22)`. -/
theorem snavely_residual_closed_form_witness :
    transformed noRotation sampleCamera samplePoint 2 ≠ 0 ∧
    SnavelyReprojectionError.operator_call noRotation ⟨1, 2⟩ sampleCamera samplePoint =
      (true, ![11, 22]) := by
  have h2 : transformed noRotation sampleCamera samplePoint 2 ≠ 0 := by
    simp [transformed, noRotation, sampleCamera, samplePoint]
  refine ⟨h2, ?_⟩
  rw [snavely_residual_closed_form noRotation sampleCamera samplePoint 1 2 h2]
  simp [transformed, noRotation, sampleCamera, samplePoint]
  norm_num

/-! ## Loops and the shape of a loaded object -/

section Shape

variable {D : Type}

theorem except_bind_ok {α β : Type} (x : Except Fault α) (f : α → Except Fault β) (b : β) :
    (x >>= f) = Except.ok b ↔ ∃ a, x = Except.ok a ∧ f a = Except.ok b := by
  cases x with
  | error e => simp [bind, Except.bind]
  | ok a => simp [bind, Except.bind]

/-- A property that every iteration keeps is kept by the loop. -/
theorem forLoopFrom_invariant {σ : Type} (P : σ → Prop) (body : Nat → σ → Except Fault σ)
    (hbody : ∀ i s s', P s → body i s = Except.ok s' → P s') :
    ∀ (count i : Nat) (s s' : σ), P s → forLoopFrom body count i s = Except.ok s' → P s' := by
  intro count
  induction count with
  | zero =>
    intro i s s' hs h
    simp only [forLoopFrom, pure, Except.pure, Except.ok.injEq] at h
    exact h ▸ hs
  | succ k ih =>
    intro i s s' hs h
    simp only [forLoopFrom] at h
    obtain ⟨a, ha, hrest⟩ := (except_bind_ok _ _ _).1 h
    exact ih (i + 1) a s' (hbody i s a hs ha) hrest

theorem FscanfOrDie_ok {T : Type} (format : List Char → Option (T × List Char))
    (fptr : List Char) (r : T × List Char) :
    BALProblem.FscanfOrDie format fptr = Except.ok r ↔ format fptr = some r := by
  unfold BALProblem.FscanfOrDie
  cases h : format fptr with
  | none => simp [throw, throwThe, MonadExceptOf.throw]
  | some r' => simp [pure, Except.pure]

theorem newArray_ok {α : Type} [Inhabited α] (n : Int) (a : List α) :
    newArray n = Except.ok a ↔ 0 ≤ n ∧ a = List.replicate n.toNat default := by
  unfold newArray
  split
  · simp [throw, throwThe, MonadExceptOf.throw]; omega
  · simp [pure, Except.pure]; constructor
    · intro h; exact ⟨by omega, h.symm⟩
    · intro h; exact h.2.symm

/-- What a successful `LoadFile` on an opened file has done: three counts
read, four arrays allocated, the two loops run to their end. -/
theorem LoadFile_ok_steps [Inhabited D] (strtod : List Char → D) (self s : BALProblem D)
    (fptr : List Char) (b : Bool)
    (h : BALProblem.LoadFile strtod self (some fptr) = Except.ok (b, s)) :
    ∃ nc np no f1 f2 f3 st f4 f5,
      fscanf_d fptr = some (nc, f1) ∧ fscanf_d f1 = some (np, f2) ∧
      fscanf_d f2 = some (no, f3) ∧ 0 ≤ no ∧ 0 ≤ 9 * nc + 3 * np ∧
      forLoop no (BALProblem.readObservation strtod) (allocated nc np no, f3)
        = Except.ok (st, f4) ∧
      forLoop st.num_parameters_ (BALProblem.readParameter strtod) (st, f4)
        = Except.ok (s, f5) ∧ b = true := by
  simp only [BALProblem.LoadFile] at h
  obtain ⟨⟨nc, f1⟩, h1, h⟩ := (except_bind_ok _ _ _).1 h
  obtain ⟨⟨np, f2⟩, h2, h⟩ := (except_bind_ok _ _ _).1 h
  obtain ⟨⟨no, f3⟩, h3, h⟩ := (except_bind_ok _ _ _).1 h
  obtain ⟨a1, ha1, h⟩ := (except_bind_ok _ _ _).1 h
  obtain ⟨a2, ha2, h⟩ := (except_bind_ok _ _ _).1 h
  obtain ⟨a3, ha3, h⟩ := (except_bind_ok _ _ _).1 h
  obtain ⟨a4, ha4, h⟩ := (except_bind_ok _ _ _).1 h
  obtain ⟨⟨st, f4⟩, hl1, h⟩ := (except_bind_ok _ _ _).1 h
  obtain ⟨⟨s', f5⟩, hl2, h⟩ := (except_bind_ok _ _ _).1 h
  rw [FscanfOrDie_ok] at h1 h2 h3
  rw [newArray_ok] at ha1 ha2 ha3 ha4
  simp only [pure, Except.pure, Except.ok.injEq, Prod.mk.injEq] at h
  obtain ⟨hb, hs⟩ := h
  subst hs
  obtain ⟨hno, rfl⟩ := ha1
  obtain ⟨-, rfl⟩ := ha2
  obtain ⟨-, rfl⟩ := ha3
  obtain ⟨hnp, rfl⟩ := ha4
  exact ⟨nc, np, no, f1, f2, f3, st, f4, f5, h1, h2, h3, hno, hnp, hl1, hl2, hb.symm⟩

theorem allocated_shape [Inhabited D] (nc np no : Int) :
    Shape nc np no (allocated nc np no : BALProblem D) := by
  simp [Shape, allocated]

theorem readObservation_shape (strtod : List Char → D) (nc np no : Int) (i : Nat)
    (st st' : BALProblem D × List Char) (hs : Shape nc np no st.1)
    (h : BALProblem.readObservation strtod i st = Except.ok st') : Shape nc np no st'.1 := by
  obtain ⟨s, f⟩ := st
  simp only [BALProblem.readObservation] at h
  obtain ⟨⟨c, f1⟩, -, h⟩ := (except_bind_ok _ _ _).1 h
  obtain ⟨⟨p, f2⟩, -, h⟩ := (except_bind_ok _ _ _).1 h
  refine forLoopFrom_invariant (fun st => Shape nc np no st.1) _ ?_ _ _ _ _ ?_ h
  · rintro j ⟨s1, g⟩ ⟨s2, g2⟩ hs1 hj
    obtain ⟨⟨x, g1⟩, -, hj⟩ := (except_bind_ok _ _ _).1 hj
    simp only [pure, Except.pure, Except.ok.injEq, Prod.mk.injEq] at hj
    obtain ⟨rfl, -⟩ := hj
    simpa [Shape] using hs1
  · simpa [Shape] using hs

theorem readParameter_shape (strtod : List Char → D) (nc np no : Int) (i : Nat)
    (st st' : BALProblem D × List Char) (hs : Shape nc np no st.1)
    (h : BALProblem.readParameter strtod i st = Except.ok st') : Shape nc np no st'.1 := by
  obtain ⟨s, f⟩ := st
  simp only [BALProblem.readParameter] at h
  obtain ⟨⟨x, f1⟩, -, h⟩ := (except_bind_ok _ _ _).1 h
  simp only [pure, Except.pure, Except.ok.injEq] at h
  subst h
  simpa [Shape] using hs

/-- After a successful `LoadFile` on an opened file the object has the shape
allocated for the three counts read, none of which makes an allocation fail. -/
theorem LoadFile_shape [Inhabited D] (strtod : List Char → D) (self s : BALProblem D)
    (fptr : List Char) (b : Bool)
    (h : BALProblem.LoadFile strtod self (some fptr) = Except.ok (b, s)) :
    Shape s.num_cameras_ s.num_points_ s.num_observations_ s ∧
    0 ≤ s.num_observations_ ∧ 0 ≤ 9 * s.num_cameras_ + 3 * s.num_points_ := by
  obtain ⟨nc, np, no, f1, f2, f3, st, f4, f5, -, -, -, hno, hnp, hl1, hl2, -⟩ :=
    LoadFile_ok_steps strtod self s fptr b h
  have h1 : Shape nc np no st :=
    forLoopFrom_invariant (fun st => Shape nc np no st.1) _
      (fun i a a' ha hb => readObservation_shape strtod nc np no i a a' ha hb)
      _ _ _ _ (allocated_shape nc np no) hl1
  have h2 : Shape nc np no s :=
    forLoopFrom_invariant (fun st => Shape nc np no st.1) _
      (fun i a a' ha hb => readParameter_shape strtod nc np no i a a' ha hb)
      _ _ _ _ h1 hl2
  rw [h2.1, h2.2.1, h2.2.2.1]
  exact ⟨h2, hno, hnp⟩

end Shape

/-! ## Array reads and the snapshots -/

section Snapshots

variable {D : Type}

theorem arrayGet_ok {α : Type} (a : List α) (i : Int) (n : Nat) (hi : i = n)
    (hn : n < a.length) : arrayGet a i = Except.ok (a.get ⟨n, hn⟩) := by
  subst hi
  unfold arrayGet
  rw [if_neg (by omega)]
  simp [hn, pure, Except.pure]

theorem push_back_ok (myself : BALProblem D) (ptr k : Int) (acc : List D) (n : Nat)
    (hi : ptr + k = n) (hn : n < myself.parameters_.length) :
    add_pybinded_ceres_examples.push_back myself ptr k acc
      = Except.ok (acc ++ [myself.parameters_.get ⟨n, hn⟩]) := by
  unfold add_pybinded_ceres_examples.push_back BALProblem.deref
  rw [arrayGet_ok _ _ n hi hn]
  rfl

/-- A loop that pushes `width` consecutive cells per iteration copies a
slice of the array. -/
theorem forLoopFrom_copy (myself : BALProblem D) (width : Nat)
    (body : Nat → List D → Except Fault (List D)) (base : Nat)
    (hbody : ∀ i acc, base + width * (i + 1) ≤ myself.parameters_.length →
      body i acc = Except.ok (acc ++ (myself.parameters_.drop (base + width * i)).take width)) :
    ∀ (count i : Nat) (acc : List D),
      base + width * (i + count) ≤ myself.parameters_.length →
      forLoopFrom body count i acc
        = Except.ok (acc ++ (myself.parameters_.drop (base + width * i)).take (width * count)) := by
  intro count
  induction count with
  | zero => intro i acc _; simp [forLoopFrom, pure, Except.pure]
  | succ k ih =>
    intro i acc h
    have h1 : base + width * (i + 1) ≤ myself.parameters_.length := by
      have : width * (i + 1) ≤ width * (i + (k + 1)) := Nat.mul_le_mul_left _ (by omega)
      omega
    have h2 : base + width * (i + 1 + k) ≤ myself.parameters_.length := by
      have : i + 1 + k = i + (k + 1) := by omega
      rw [this]; exact h
    simp only [forLoopFrom, hbody i acc h1, bind, Except.bind]
    rw [ih (i + 1) _ h2, List.append_assoc]
    congr 2
    have e1 : width * (k + 1) = width + width * k := by ring
    have e2 : base + width * (i + 1) = width + (base + width * i) := by ring
    have e3 : List.drop (base + width * (i + 1)) myself.parameters_
        = List.drop width (List.drop (base + width * i) myself.parameters_) := by
      rw [List.drop_drop, e2, Nat.add_comm]
    rw [e1, e3, List.take_add]

theorem drop_take_three {α : Type} (l : List α) (a : Nat) (h : a + 3 ≤ l.length) :
    (l.drop a).take 3
      = [l.get ⟨a, by omega⟩, l.get ⟨a + 1, by omega⟩, l.get ⟨a + 2, by omega⟩] := by
  rw [List.drop_eq_getElem_cons (by omega), List.drop_eq_getElem_cons (by omega),
    List.drop_eq_getElem_cons (by omega)]
  rfl

theorem drop_take_nine {α : Type} (l : List α) (a : Nat) (h : a + 9 ≤ l.length) :
    (l.drop a).take 9
      = [l.get ⟨a, by omega⟩, l.get ⟨a + 1, by omega⟩, l.get ⟨a + 2, by omega⟩,
         l.get ⟨a + 3, by omega⟩, l.get ⟨a + 4, by omega⟩, l.get ⟨a + 5, by omega⟩,
         l.get ⟨a + 6, by omega⟩, l.get ⟨a + 7, by omega⟩, l.get ⟨a + 8, by omega⟩] := by
  rw [List.drop_eq_getElem_cons (by omega), List.drop_eq_getElem_cons (by omega),
    List.drop_eq_getElem_cons (by omega), List.drop_eq_getElem_cons (by omega),
    List.drop_eq_getElem_cons (by omega), List.drop_eq_getElem_cons (by omega),
    List.drop_eq_getElem_cons (by omega), List.drop_eq_getElem_cons (by omega),
    List.drop_eq_getElem_cons (by omega)]
  rfl

/-- The snapshot `cameras()` of an object whose camera region lies inside
`parameters_` is the camera region. -/
theorem cameras_eq_take (s : BALProblem D) (n : Nat) (hn : s.num_cameras_ = n)
    (hlen : 9 * n ≤ s.parameters_.length) :
    add_pybinded_ceres_examples.cameras s = Except.ok (s.parameters_.take (9 * n)) := by
  unfold add_pybinded_ceres_examples.cameras forLoop
  rw [hn, Int.toNat_ofNat]
  refine Eq.trans (forLoopFrom_copy s 9 _ 0 ?_ n 0 [] (by omega)) (by simp)
  · intro i acc hi
    have hi' : 9 * i + 9 ≤ s.parameters_.length := by omega
    rw [push_back_ok s _ _ acc (9 * i) (by simp [BALProblem.mutable_cameras]) (by omega)]
    simp only [bind, Except.bind]
    rw [push_back_ok s _ _ _ (9 * i + 1) (by simp [BALProblem.mutable_cameras]) (by omega)]
    simp only
    rw [push_back_ok s _ _ _ (9 * i + 2) (by simp [BALProblem.mutable_cameras]) (by omega)]
    simp only
    rw [push_back_ok s _ _ _ (9 * i + 3) (by simp [BALProblem.mutable_cameras]) (by omega)]
    simp only
    rw [push_back_ok s _ _ _ (9 * i + 4) (by simp [BALProblem.mutable_cameras]) (by omega)]
    simp only
    rw [push_back_ok s _ _ _ (9 * i + 5) (by simp [BALProblem.mutable_cameras]) (by omega)]
    simp only
    rw [push_back_ok s _ _ _ (9 * i + 6) (by simp [BALProblem.mutable_cameras]) (by omega)]
    simp only
    rw [push_back_ok s _ _ _ (9 * i + 7) (by simp [BALProblem.mutable_cameras]) (by omega)]
    simp only
    rw [push_back_ok s _ _ _ (9 * i + 8) (by simp [BALProblem.mutable_cameras]) (by omega)]
    have e : 0 + 9 * i = 9 * i := Nat.zero_add _
    rw [e, drop_take_nine _ _ hi']
    simp

end Snapshots

/-! ## Loaded datasets -/

section Loaded

variable {D : Type}

theorem sampleFile_loads :
    BALProblem.LoadFile id (BALProblem.init (List Char)) (some sampleFile)
      = Except.ok (true, sampleDataset) := by
  rfl

theorem sampleDataset_loaded : LoadedDataset id sampleDataset :=
  ⟨BALProblem.init (List Char), some sampleFile, sampleFile_loads, by decide, by decide⟩

theorem negPointsFile_loads :
    BALProblem.LoadFile id (BALProblem.init (List Char)) (some negPointsFile)
      = Except.ok (true, negPointsDataset) := by
  rfl

theorem negCamerasFile_loads :
    BALProblem.LoadFile id (BALProblem.init (List Char)) (some negCamerasFile)
      = Except.ok (true, negCamerasDataset) := by
  rfl

/-- A successful `LoadFile` has opened its file. -/
theorem LoadFile_true_opened [Inhabited D] (strtod : List Char → D) (self s : BALProblem D)
    (file : Option (List Char))
    (h : BALProblem.LoadFile strtod self file = Except.ok (true, s)) :
    ∃ fptr, file = some fptr := by
  cases file with
  | none => simp [BALProblem.LoadFile, pure, Except.pure] at h
  | some fptr => exact ⟨fptr, rfl⟩

/-- The counts of a loaded dataset as natural numbers, and the lengths of its arrays. -/
theorem LoadedDataset.sizes [Inhabited D] {strtod : List Char → D} {s : BALProblem D}
    (hs : LoadedDataset strtod s) :
    ∃ nc np no : Nat, s.num_cameras_ = nc ∧ s.num_points_ = np ∧ s.num_observations_ = no ∧
      s.parameters_.length = 9 * nc + 3 * np ∧ s.camera_index_.length = no ∧
      s.point_index_.length = no ∧ s.observations_.length = 2 * no := by
  obtain ⟨self, file, h, hnc, hnp⟩ := hs
  obtain ⟨fptr, rfl⟩ := LoadFile_true_opened strtod self s file h
  obtain ⟨⟨-, -, -, -, h5, h6, h7, h8⟩, hno, -⟩ := LoadFile_shape strtod self s fptr true h
  refine ⟨s.num_cameras_.toNat, s.num_points_.toNat, s.num_observations_.toNat,
    by omega, by omega, by omega, by omega, by omega, by omega, by omega⟩

end Loaded

/-! ## Claim C10: the sizes of the buffers after a successful load -/

/-- C10: after a `LoadFile` that returned `true`, `parameters_` has exactly
`9 * num_cameras_ + 3 * num_points_` cells, which is `num_parameters_`, and
`observations_`, `camera_index_` and `point_index_` have
`2 * num_observations_`, `num_observations_` and `num_observations_` cells. -/
theorem LoadFile_buffer_sizes {D : Type} [Inhabited D] (strtod : List Char → D)
    (self s : BALProblem D) (file : Option (List Char))
    (h : BALProblem.LoadFile strtod self file = Except.ok (true, s)) :
    (s.parameters_.length : Int) = 9 * s.num_cameras_ + 3 * s.num_points_ ∧
    s.num_parameters_ = 9 * s.num_cameras_ + 3 * s.num_points_ ∧
    (s.observations_.length : Int) = 2 * s.num_observations_ ∧
    (s.camera_index_.length : Int) = s.num_observations_ ∧
    (s.point_index_.length : Int) = s.num_observations_ := by
  obtain ⟨fptr, rfl⟩ := LoadFile_true_opened strtod self s file h
  obtain ⟨⟨-, -, -, h4, h5, h6, h7, h8⟩, hno, hnp⟩ := LoadFile_shape strtod self s fptr true h
  refine ⟨by omega, h4, by omega, by omega, by omega⟩

/-- C10 at `sampleFile`: 15 parameters, 4 observation values, 2 indices of each kind. -/
theorem LoadFile_buffer_sizes_witness :
    BALProblem.LoadFile id (BALProblem.init (List Char)) (some sampleFile)
      = Except.ok (true, sampleDataset) ∧
    (sampleDataset.parameters_.length : Int)
      = 9 * sampleDataset.num_cameras_ + 3 * sampleDataset.num_points_ ∧
    sampleDataset.num_parameters_
      = 9 * sampleDataset.num_cameras_ + 3 * sampleDataset.num_points_ ∧
    (sampleDataset.observations_.length : Int) = 2 * sampleDataset.num_observations_ ∧
    (sampleDataset.camera_index_.length : Int) = sampleDataset.num_observations_ ∧
    (sampleDataset.point_index_.length : Int) = sampleDataset.num_observations_ :=
  ⟨by rfl, LoadFile_buffer_sizes id (BALProblem.init (List Char)) sampleDataset
    (some sampleFile) (by rfl)⟩

/-! ## Claims C3 and C4: the blocks of an observation -/

section Blocks

variable {D : Type}

/-- A loop that pushes `ptr[idx]` for `idx` below `count` copies `count`
cells from the offset `ptr` on. -/
theorem forLoop_push_back (s : BALProblem D) (ptr : Int) (base count : Nat) (hptr : ptr = base)
    (hlen : base + count ≤ s.parameters_.length) :
    forLoop count (fun idx double_data =>
        add_pybinded_ceres_examples.push_back s ptr idx double_data) []
      = Except.ok ((s.parameters_.drop base).take count) := by
  unfold forLoop
  rw [Int.toNat_ofNat]
  refine Eq.trans (forLoopFrom_copy s 1 _ base ?_ count 0 [] (by omega)) (by simp)
  intro i acc hi
  have e : base + 1 * i = base + i := by omega
  have hn : base + i < s.parameters_.length := by omega
  rw [push_back_ok s _ _ acc (base + i) (by omega) hn, e, List.drop_eq_getElem_cons hn]
  rfl

theorem take_drop_getElem? {α : Type} (l : List α) (a n k : Nat) (hk : k < n) :
    ((l.drop a).take n)[k]? = l[a + k]? := by
  rw [List.getElem?_take_of_lt hk, List.getElem?_drop]

/-- C3 as stated fails at `negPointsFile`: `LoadFile` returns `true`,
observation 0 is in range and its camera index 1 is in `[0, 2)`, but the
buffer `parameters_` has `9 * 2 + 3 * (-3) = 9` cells, so that the block of
camera 1, the cells 9 to 17, lies outside it: the lambda and the pointer of
the method read outside the array. -/
theorem camera_block_negative_points :
    BALProblem.LoadFile id (BALProblem.init (List Char)) (some negPointsFile)
      = Except.ok (true, negPointsDataset) ∧
    ((0 : Int) ≤ 0 ∧ (0 : Int) < negPointsDataset.num_observations_) ∧
    add_pybinded_ceres_examples.camera_index negPointsDataset 0 = Except.ok 1 ∧
    ((0 : Int) ≤ 1 ∧ (1 : Int) < negPointsDataset.num_cameras_) ∧
    negPointsDataset.parameters_.length = 9 ∧
    add_pybinded_ceres_examples.mutable_cameras_for_observation negPointsDataset 0
      = Except.error Fault.out_of_bounds ∧
    negPointsDataset.mutable_camera_for_observation 0 = Except.ok 9 ∧
    negPointsDataset.deref 9 0 = Except.error Fault.out_of_bounds :=
  ⟨by rfl, by decide, by rfl, by decide, by rfl, by rfl, by rfl, by rfl⟩

/-- C3, amended: after a `LoadFile` that returned `true` and read a number of
points that is not negative, for an observation `i` in range whose camera
index `c` is in `[0, num_cameras_)`, the lambda `mutable_cameras_for_observation`
returns the 9 cells `parameters_[9 * c + k]`, `k = 0..8`, in that order, and
the pointer returned by `mutable_camera_for_observation` points at them. -/
theorem camera_block_for_observation [Inhabited D] (strtod : List Char → D)
    (self s : BALProblem D) (file : Option (List Char))
    (h : BALProblem.LoadFile strtod self file = Except.ok (true, s))
    (hnp0 : 0 ≤ s.num_points_) (i : Int) (_hi : 0 ≤ i ∧ i < s.num_observations_)
    (c : Int) (hc : add_pybinded_ceres_examples.camera_index s i = Except.ok c)
    (hr : 0 ≤ c ∧ c < s.num_cameras_) :
    ∃ (blk : List D) (ptr : Int),
      add_pybinded_ceres_examples.mutable_cameras_for_observation s i = Except.ok blk ∧
      s.mutable_camera_for_observation i = Except.ok ptr ∧
      blk.length = 9 ∧
      ∀ k : Nat, k < 9 →
        blk[k]? = s.parameters_[9 * c.toNat + k]? ∧ (s.deref ptr k).toOption = blk[k]? := by
  have hs : LoadedDataset strtod s := ⟨self, file, h, by omega, hnp0⟩
  obtain ⟨nc, np, no, hnc, hnp, hno, hlen, -, -, -⟩ := hs.sizes
  have hc' : arrayGet s.camera_index_ i = Except.ok c := hc
  have hb : 9 * c.toNat + 9 ≤ s.parameters_.length := by omega
  refine ⟨(s.parameters_.drop (9 * c.toNat)).take 9, 9 * c, ?_, ?_, ?_, ?_⟩
  · simp only [add_pybinded_ceres_examples.mutable_cameras_for_observation, hc', bind,
      Except.bind]
    exact forLoop_push_back s _ (9 * c.toNat) 9 (by simp [BALProblem.mutable_cameras]; omega) hb
  · simp only [BALProblem.mutable_camera_for_observation, hc', bind, Except.bind, pure,
      Except.pure, BALProblem.mutable_cameras]
    congr 1; omega
  · rw [List.length_take, List.length_drop]; omega
  · intro k hk
    refine ⟨take_drop_getElem? _ _ _ _ hk, ?_⟩
    have hn : 9 * c.toNat + k < s.parameters_.length := by omega
    rw [BALProblem.deref, arrayGet_ok _ _ (9 * c.toNat + k) (by omega) hn,
      take_drop_getElem? _ _ _ _ hk, List.getElem?_eq_getElem hn]
    rfl

/-- The amended C3 at `sampleDataset`, observation 1 (camera 0). -/
theorem camera_block_for_observation_witness :
    BALProblem.LoadFile id (BALProblem.init (List Char)) (some sampleFile)
      = Except.ok (true, sampleDataset) ∧ 0 ≤ sampleDataset.num_points_ ∧
    ((0 : Int) ≤ 1 ∧ (1 : Int) < sampleDataset.num_observations_) ∧
    add_pybinded_ceres_examples.camera_index sampleDataset 1 = Except.ok 0 ∧
    ((0 : Int) ≤ 0 ∧ (0 : Int) < sampleDataset.num_cameras_) ∧
    ∃ (blk : List (List Char)) (ptr : Int),
      add_pybinded_ceres_examples.mutable_cameras_for_observation sampleDataset 1
        = Except.ok blk ∧
      sampleDataset.mutable_camera_for_observation 1 = Except.ok ptr ∧
      blk.length = 9 ∧
      ∀ k : Nat, k < 9 →
        blk[k]? = sampleDataset.parameters_[9 * (0 : Int).toNat + k]? ∧
        (sampleDataset.deref ptr k).toOption = blk[k]? :=
  ⟨sampleFile_loads, by decide, by decide, by rfl, by decide,
    camera_block_for_observation id (BALProblem.init (List Char)) sampleDataset
      (some sampleFile) sampleFile_loads (by decide) 1 (by decide) 0 (by rfl) (by decide)⟩

/-- C4 as stated fails at `negCamerasFile`: `LoadFile` returns `true`,
observation 0 is in range and its point index 0 is in `[0, 6)`, but
`mutable_points()` is `parameters_ + 9 * (-1)`, so that the block of point 0
starts 9 cells before the buffer: the lambda and the pointer of the method
read outside the array. -/
theorem point_block_negative_cameras :
    BALProblem.LoadFile id (BALProblem.init (List Char)) (some negCamerasFile)
      = Except.ok (true, negCamerasDataset) ∧
    ((0 : Int) ≤ 0 ∧ (0 : Int) < negCamerasDataset.num_observations_) ∧
    add_pybinded_ceres_examples.point_index negCamerasDataset 0 = Except.ok 0 ∧
    ((0 : Int) ≤ 0 ∧ (0 : Int) < negCamerasDataset.num_points_) ∧
    negCamerasDataset.mutable_points = -9 ∧
    add_pybinded_ceres_examples.mutable_point_for_observation negCamerasDataset 0
      = Except.error Fault.out_of_bounds ∧
    negCamerasDataset.mutable_point_for_observation 0 = Except.ok (-9) ∧
    negCamerasDataset.deref (-9) 0 = Except.error Fault.out_of_bounds :=
  ⟨by rfl, by decide, by rfl, by decide, by rfl, by rfl, by rfl, by rfl⟩

/-- C4, amended: after a `LoadFile` that returned `true` and read a number of
cameras that is not negative, for an observation `i` in range whose point
index `q` is in `[0, num_points_)`, the lambda `mutable_point_for_observation`
returns the 3 cells `parameters_[9 * num_cameras_ + 3 * q + k]`, `k = 0..2`, in
that order, and the pointer returned by the method of the same name points at
them. -/
theorem point_block_for_observation [Inhabited D] (strtod : List Char → D)
    (self s : BALProblem D) (file : Option (List Char))
    (h : BALProblem.LoadFile strtod self file = Except.ok (true, s))
    (hnc0 : 0 ≤ s.num_cameras_) (i : Int) (_hi : 0 ≤ i ∧ i < s.num_observations_)
    (q : Int) (hq : add_pybinded_ceres_examples.point_index s i = Except.ok q)
    (hr : 0 ≤ q ∧ q < s.num_points_) :
    ∃ (blk : List D) (ptr : Int),
      add_pybinded_ceres_examples.mutable_point_for_observation s i = Except.ok blk ∧
      s.mutable_point_for_observation i = Except.ok ptr ∧
      blk.length = 3 ∧
      ∀ k : Nat, k < 3 →
        blk[k]? = s.parameters_[9 * s.num_cameras_.toNat + 3 * q.toNat + k]? ∧
        (s.deref ptr k).toOption = blk[k]? := by
  have hs : LoadedDataset strtod s := ⟨self, file, h, hnc0, by omega⟩
  obtain ⟨nc, np, no, hnc, hnp, hno, hlen, -, -, -⟩ := hs.sizes
  have hq' : arrayGet s.point_index_ i = Except.ok q := hq
  have hb : 9 * s.num_cameras_.toNat + 3 * q.toNat + 3 ≤ s.parameters_.length := by omega
  refine ⟨(s.parameters_.drop (9 * s.num_cameras_.toNat + 3 * q.toNat)).take 3,
    9 * s.num_cameras_ + q * 3, ?_, ?_, ?_, ?_⟩
  · simp only [add_pybinded_ceres_examples.mutable_point_for_observation, hq', bind,
      Except.bind]
    exact forLoop_push_back s _ (9 * s.num_cameras_.toNat + 3 * q.toNat) 3
      (by simp [BALProblem.mutable_points]; omega) hb
  · simp only [BALProblem.mutable_point_for_observation, hq', bind, Except.bind, pure,
      Except.pure, BALProblem.mutable_points]
  · rw [List.length_take, List.length_drop]; omega
  · intro k hk
    refine ⟨take_drop_getElem? _ _ _ _ hk, ?_⟩
    have hn : 9 * s.num_cameras_.toNat + 3 * q.toNat + k < s.parameters_.length := by omega
    rw [BALProblem.deref, arrayGet_ok _ _ (9 * s.num_cameras_.toNat + 3 * q.toNat + k)
      (by omega) hn, take_drop_getElem? _ _ _ _ hk, List.getElem?_eq_getElem hn]
    rfl

/-- The amended C4 at `sampleDataset`, observation 0 (point 1). -/
theorem point_block_for_observation_witness :
    BALProblem.LoadFile id (BALProblem.init (List Char)) (some sampleFile)
      = Except.ok (true, sampleDataset) ∧ 0 ≤ sampleDataset.num_cameras_ ∧
    ((0 : Int) ≤ 0 ∧ (0 : Int) < sampleDataset.num_observations_) ∧
    add_pybinded_ceres_examples.point_index sampleDataset 0 = Except.ok 1 ∧
    ((0 : Int) ≤ 1 ∧ (1 : Int) < sampleDataset.num_points_) ∧
    ∃ (blk : List (List Char)) (ptr : Int),
      add_pybinded_ceres_examples.mutable_point_for_observation sampleDataset 0
        = Except.ok blk ∧
      sampleDataset.mutable_point_for_observation 0 = Except.ok ptr ∧
      blk.length = 3 ∧
      ∀ k : Nat, k < 3 →
        blk[k]? = sampleDataset.parameters_[9 * sampleDataset.num_cameras_.toNat
          + 3 * (1 : Int).toNat + k]? ∧
        (sampleDataset.deref ptr k).toOption = blk[k]? :=
  ⟨sampleFile_loads, by decide, by decide, by rfl, by decide,
    point_block_for_observation id (BALProblem.init (List Char)) sampleDataset
      (some sampleFile) sampleFile_loads (by decide) 0 (by decide) 1 (by rfl) (by decide)⟩

end Blocks

/-! ## Claims C6 and C5: the snapshots `cameras()` and `points()` -/

section SnapshotClaims

variable {D : Type}

/-- C6 as stated fails at `negPointsFile` and at `negCamerasFile`, on both of
which `LoadFile` returns `true`. With two cameras and `-3` points the buffer
has 9 cells and `cameras()` reads 18: it reads outside the array. With `-1`
cameras the loop of `cameras()` does not run: the snapshot is empty, and its
length 0 is not `9 * (-1)`. -/
theorem cameras_snapshot_negative_counts :
    BALProblem.LoadFile id (BALProblem.init (List Char)) (some negPointsFile)
      = Except.ok (true, negPointsDataset) ∧
    negPointsDataset.num_cameras_ = 2 ∧ negPointsDataset.parameters_.length = 9 ∧
    add_pybinded_ceres_examples.cameras negPointsDataset = Except.error Fault.out_of_bounds ∧
    BALProblem.LoadFile id (BALProblem.init (List Char)) (some negCamerasFile)
      = Except.ok (true, negCamerasDataset) ∧
    negCamerasDataset.num_cameras_ = -1 ∧
    add_pybinded_ceres_examples.cameras negCamerasDataset = Except.ok [] ∧
    (([] : List (List Char)).length : Int) ≠ 9 * negCamerasDataset.num_cameras_ :=
  ⟨by rfl, by rfl, by rfl, by rfl, by rfl, by rfl, by rfl, by decide⟩

/-- C6, amended: after a `LoadFile` that returned `true` and read numbers of
cameras and of points that are not negative, the snapshot `cameras()` is the
camera region in order: it has `9 * num_cameras_` entries and its entry `m` is
`parameters_[m]`. -/
theorem cameras_snapshot [Inhabited D] (strtod : List Char → D)
    (self s : BALProblem D) (file : Option (List Char))
    (h : BALProblem.LoadFile strtod self file = Except.ok (true, s))
    (hnc0 : 0 ≤ s.num_cameras_) (hnp0 : 0 ≤ s.num_points_) :
    ∃ snap : List D, add_pybinded_ceres_examples.cameras s = Except.ok snap ∧
      (snap.length : Int) = 9 * s.num_cameras_ ∧
      ∀ m : Nat, (m : Int) < 9 * s.num_cameras_ →
        snap[m]? = s.parameters_[m]? ∧ m < s.parameters_.length := by
  have hs : LoadedDataset strtod s := ⟨self, file, h, hnc0, hnp0⟩
  obtain ⟨nc, np, no, hnc, hnp, hno, hlen, -, -, -⟩ := hs.sizes
  refine ⟨s.parameters_.take (9 * nc), cameras_eq_take s nc hnc (by omega), ?_, ?_⟩
  · rw [List.length_take, hnc]; omega
  · intro m hm
    have hm' : m < 9 * nc := by omega
    exact ⟨List.getElem?_take_of_lt hm', by omega⟩

/-- The amended C6 at `sampleDataset`. -/
theorem cameras_snapshot_witness :
    BALProblem.LoadFile id (BALProblem.init (List Char)) (some sampleFile)
      = Except.ok (true, sampleDataset) ∧
    0 ≤ sampleDataset.num_cameras_ ∧ 0 ≤ sampleDataset.num_points_ ∧
    ∃ snap : List (List Char),
      add_pybinded_ceres_examples.cameras sampleDataset = Except.ok snap ∧
      (snap.length : Int) = 9 * sampleDataset.num_cameras_ ∧
      ∀ m : Nat, (m : Int) < 9 * sampleDataset.num_cameras_ →
        snap[m]? = sampleDataset.parameters_[m]? ∧ m < sampleDataset.parameters_.length :=
  ⟨sampleFile_loads, by decide, by decide,
    cameras_snapshot id (BALProblem.init (List Char)) sampleDataset (some sampleFile)
      sampleFile_loads (by decide) (by decide)⟩

/-- C5, the code at a dataset of two points: the lambda `points` reads
`mutable_points()[9 * idx + k]`; for the point `idx = 1` that is the cell
`parameters_[18]` of a buffer of 15 cells, a read outside the array, and no
snapshot of `3 * num_points_` entries is returned. The lambda
`mutable_point_for_observation` reads point 1 at `parameters_[12..14]`. -/
theorem points_snapshot_stride_nine :
    BALProblem.LoadFile id (BALProblem.init (List Char)) (some sampleFile)
      = Except.ok (true, sampleDataset) ∧
    sampleDataset.num_points_ = 2 ∧ sampleDataset.parameters_.length = 15 ∧
    add_pybinded_ceres_examples.points sampleDataset = Except.error Fault.out_of_bounds ∧
    sampleDataset.mutable_points + (9 * (1 : Nat) + 0) = 18 ∧
    add_pybinded_ceres_examples.mutable_point_for_observation sampleDataset 0
      = Except.ok ["2.1".toList, "2.2".toList, "2.3".toList] ∧
    sampleDataset.parameters_.drop 12 = ["2.1".toList, "2.2".toList, "2.3".toList] :=
  ⟨by rfl, by rfl, by rfl, by rfl, by rfl, by rfl, by rfl⟩

end SnapshotClaims

/-! ## Claim C7: a write through the camera block of an observation -/

section Aliasing

variable {D : Type}

theorem strayFile_loads :
    BALProblem.LoadFile id (BALProblem.init (List Char)) (some strayFile)
      = Except.ok (true, strayDataset) := by
  rfl

/-- C7 as stated fails in three ways, each on an object for which `LoadFile`
returned `true` and an observation in range.

At `strayDataset` the camera index of observation 0 is 1, with one camera:
the pointer of its block is `parameters_ + 9`, the write of `v` to element 0
lands in the point region, and the snapshot `cameras()` taken afterwards is
the one taken before; it has 9 entries, so no entry `9 * 1 + 0`.

At `negPointsDataset` the camera index 1 of observation 0 is in `[0, 2)`,
but the buffer has 9 cells: the write through the pointer `parameters_ + 9`
is a write outside the array.

At `sampleDataset` the lambda `mutable_cameras_for_observation` returns a new
vector, the copy of the block of camera 0. A write of `v` to element 4 of it
changes that vector and no member of the object, so that entry `9 * 0 + 4` of
`cameras()`, taken of the same object, is still `0.5`. -/
theorem camera_write_not_visible :
    (BALProblem.LoadFile id (BALProblem.init (List Char)) (some strayFile)
        = Except.ok (true, strayDataset) ∧
      ((0 : Int) ≤ 0 ∧ (0 : Int) < strayDataset.num_observations_) ∧
      add_pybinded_ceres_examples.camera_index strayDataset 0 = Except.ok 1 ∧
      ∃ (s' : BALProblem (List Char)) (snap : List (List Char)),
        strayDataset.mutable_camera_for_observation 0 = Except.ok 9 ∧
        strayDataset.assign 9 0 "-1".toList = Except.ok s' ∧
        add_pybinded_ceres_examples.cameras strayDataset = Except.ok snap ∧
        add_pybinded_ceres_examples.cameras s' = Except.ok snap ∧
        snap.length = 9 ∧ snap[9 * 1 + 0]? ≠ some "-1".toList) ∧
    (BALProblem.LoadFile id (BALProblem.init (List Char)) (some negPointsFile)
        = Except.ok (true, negPointsDataset) ∧
      ((0 : Int) ≤ 0 ∧ (0 : Int) < negPointsDataset.num_observations_) ∧
      add_pybinded_ceres_examples.camera_index negPointsDataset 0 = Except.ok 1 ∧
      ((0 : Int) ≤ 1 ∧ (1 : Int) < negPointsDataset.num_cameras_) ∧
      negPointsDataset.mutable_camera_for_observation 0 = Except.ok 9 ∧
      negPointsDataset.assign 9 0 "-1".toList = Except.error Fault.out_of_bounds) ∧
    (BALProblem.LoadFile id (BALProblem.init (List Char)) (some sampleFile)
        = Except.ok (true, sampleDataset) ∧
      ((0 : Int) ≤ 1 ∧ (1 : Int) < sampleDataset.num_observations_) ∧
      add_pybinded_ceres_examples.camera_index sampleDataset 1 = Except.ok 0 ∧
      ((0 : Int) ≤ 0 ∧ (0 : Int) < sampleDataset.num_cameras_) ∧
      ∃ (blk snap : List (List Char)),
        add_pybinded_ceres_examples.mutable_cameras_for_observation sampleDataset 1
          = Except.ok blk ∧
        (blk.set 4 "-1".toList)[4]? = some "-1".toList ∧
        add_pybinded_ceres_examples.cameras sampleDataset = Except.ok snap ∧
        snap[9 * 0 + 4]? = some "0.5".toList ∧ snap[9 * 0 + 4]? ≠ some "-1".toList) :=
  ⟨⟨strayFile_loads, by decide, by rfl,
      { strayDataset with parameters_ := strayDataset.parameters_.set 9 "-1".toList },
      strayDataset.parameters_.take 9, by rfl, by rfl, by rfl, by rfl, by rfl, by decide⟩,
    ⟨negPointsFile_loads, by decide, by rfl, by decide, by rfl, by rfl⟩,
    ⟨sampleFile_loads, by decide, by rfl, by decide,
      sampleDataset.parameters_.take 9, sampleDataset.parameters_.take 9,
      by rfl, by rfl, by rfl, by rfl, by decide⟩⟩

theorem assign_ok (s : BALProblem D) (ptr k : Int) (v : D) (n : Nat) (hi : ptr + k = n)
    (hn : n < s.parameters_.length) :
    s.assign ptr k v = Except.ok { s with parameters_ := s.parameters_.set n v } := by
  unfold BALProblem.assign
  rw [if_neg (by omega), hi, Int.toNat_ofNat]
  rfl

/-- C7, amended: after a `LoadFile` that returned `true` and read a number of
points that is not negative, for an observation `i` in range whose camera
index `c` is in `[0, num_cameras_)`, a write of `v` to element `k` of the block
that the method `mutable_camera_for_observation(i)` points at makes entry
`9 * c + k` of a later snapshot `cameras()` equal to `v` and leaves every
other entry of the snapshot as it was. -/
theorem camera_write_visible [Inhabited D] (strtod : List Char → D)
    (self s : BALProblem D) (file : Option (List Char))
    (h : BALProblem.LoadFile strtod self file = Except.ok (true, s))
    (hnp0 : 0 ≤ s.num_points_) (i : Int) (_hi : 0 ≤ i ∧ i < s.num_observations_)
    (c : Int) (hc : add_pybinded_ceres_examples.camera_index s i = Except.ok c)
    (hr : 0 ≤ c ∧ c < s.num_cameras_) (k : Nat) (hk : k < 9) (v : D) :
    ∃ (ptr : Int) (s' : BALProblem D) (snap snap' : List D),
      s.mutable_camera_for_observation i = Except.ok ptr ∧
      s.assign ptr k v = Except.ok s' ∧
      add_pybinded_ceres_examples.cameras s = Except.ok snap ∧
      add_pybinded_ceres_examples.cameras s' = Except.ok snap' ∧
      snap'[9 * c.toNat + k]? = some v ∧
      ∀ m : Nat, m ≠ 9 * c.toNat + k → snap'[m]? = snap[m]? := by
  have hs : LoadedDataset strtod s := ⟨self, file, h, by omega, hnp0⟩
  obtain ⟨nc, np, no, hnc, hnp, hno, hlen, -, -, -⟩ := hs.sizes
  have hc' : arrayGet s.camera_index_ i = Except.ok c := hc
  have hj : 9 * c.toNat + k < 9 * nc := by omega
  have hn : 9 * c.toNat + k < s.parameters_.length := by omega
  refine ⟨9 * c, { s with parameters_ := s.parameters_.set (9 * c.toNat + k) v },
    s.parameters_.take (9 * nc), (s.parameters_.set (9 * c.toNat + k) v).take (9 * nc),
    ?_, assign_ok s _ _ v _ (by omega) hn, cameras_eq_take s nc hnc (by omega),
    cameras_eq_take _ nc hnc (by simp; omega), ?_, ?_⟩
  · simp only [BALProblem.mutable_camera_for_observation, hc', bind, Except.bind, pure,
      Except.pure, BALProblem.mutable_cameras]
    congr 1; omega
  · rw [List.getElem?_take_of_lt hj, List.getElem?_set_self hn]
  · intro m hm
    by_cases hmn : m < 9 * nc
    · rw [List.getElem?_take_of_lt hmn, List.getElem?_take_of_lt hmn,
        List.getElem?_set_ne (Ne.symm hm)]
    · rw [List.getElem?_eq_none (by simp; omega), List.getElem?_eq_none (by simp; omega)]

/-- The amended C7 at `sampleDataset`: a write to element 4 of the camera
block of observation 1. -/
theorem camera_write_visible_witness :
    BALProblem.LoadFile id (BALProblem.init (List Char)) (some sampleFile)
      = Except.ok (true, sampleDataset) ∧ 0 ≤ sampleDataset.num_points_ ∧
    ((0 : Int) ≤ 1 ∧ (1 : Int) < sampleDataset.num_observations_) ∧
    add_pybinded_ceres_examples.camera_index sampleDataset 1 = Except.ok 0 ∧
    ((0 : Int) ≤ 0 ∧ (0 : Int) < sampleDataset.num_cameras_) ∧ 4 < 9 ∧
    ∃ (ptr : Int) (s' : BALProblem (List Char)) (snap snap' : List (List Char)),
      sampleDataset.mutable_camera_for_observation 1 = Except.ok ptr ∧
      sampleDataset.assign ptr (4 : Nat) "-1".toList = Except.ok s' ∧
      add_pybinded_ceres_examples.cameras sampleDataset = Except.ok snap ∧
      add_pybinded_ceres_examples.cameras s' = Except.ok snap' ∧
      snap'[9 * (0 : Int).toNat + 4]? = some "-1".toList ∧
      ∀ m : Nat, m ≠ 9 * (0 : Int).toNat + 4 → snap'[m]? = snap[m]? :=
  ⟨sampleFile_loads, by decide, by decide, by rfl, by decide, by decide,
    camera_write_visible id (BALProblem.init (List Char)) sampleDataset (some sampleFile)
      sampleFile_loads (by decide) 1 (by decide) 0 (by rfl) (by decide) 4 (by decide)
      "-1".toList⟩

end Aliasing

/-! ## The conversions on the text of a token -/

section Scanning

theorem digitChar_isdigit (d : Nat) (h : d < 10) :
    isdigit (Nat.digitChar d) = true ∧ (Nat.digitChar d).toNat - 48 = d := by
  interval_cases d <;> exact ⟨by decide, by decide⟩

theorem digitsValue_append (ds : List Char) (c : Char) :
    digitsValue (ds ++ [c]) = 10 * digitsValue ds + (c.toNat - 48) := by
  simp [digitsValue, List.foldl_append]

/-- The digits that `Nat.toDigitsCore` puts in front of its accumulator. -/
theorem toDigitsCore_spec : ∀ (fuel n : Nat) (acc : List Char), n < fuel →
    ∃ ds, Nat.toDigitsCore 10 fuel n acc = ds ++ acc ∧ ds ≠ [] ∧
      (∀ c ∈ ds, isdigit c = true) ∧ digitsValue ds = n := by
  intro fuel
  induction fuel with
  | zero => intro n acc h; omega
  | succ f ih =>
    intro n acc h
    have hd := digitChar_isdigit (n % 10) (Nat.mod_lt _ (by decide))
    simp only [Nat.toDigitsCore]
    by_cases h0 : n / 10 = 0
    · rw [if_pos h0]
      refine ⟨[Nat.digitChar (n % 10)], rfl, by simp, by simpa using hd.1, ?_⟩
      have := digitsValue_append [] (Nat.digitChar (n % 10))
      simp only [List.nil_append] at this
      rw [this, hd.2]
      simp [digitsValue]
      omega
    · rw [if_neg h0]
      obtain ⟨ds, e, hne, hall, hv⟩ := ih (n / 10) (Nat.digitChar (n % 10) :: acc) (by omega)
      refine ⟨ds ++ [Nat.digitChar (n % 10)], by rw [e]; simp, by simp, ?_, ?_⟩
      · intro c hc
        rcases List.mem_append.1 hc with hc | hc
        · exact hall c hc
        · rw [List.mem_singleton.1 hc]; exact hd.1
      · rw [digitsValue_append, hv, hd.2]; omega

theorem toDigits_spec (n : Nat) :
    Nat.toDigits 10 n ≠ [] ∧ (∀ c ∈ Nat.toDigits 10 n, isdigit c = true) ∧
      digitsValue (Nat.toDigits 10 n) = n := by
  obtain ⟨ds, e, hne, hall, hv⟩ := toDigitsCore_spec (n + 1) n [] (by omega)
  rw [List.append_nil] at e
  rw [Nat.toDigits, e]
  exact ⟨hne, hall, hv⟩

end Scanning

/-! ## The conversions on the text of a dataset file -/

section TokenReads

theorem space_stops (w : Char) (hw : isspace w = true) :
    isdigit w = false ∧ issign w = false ∧ isexp w = false ∧ w ≠ '.' := by
  simp only [isspace, Bool.or_eq_true, decide_eq_true_eq] at hw
  rcases hw with ((((h | h) | h) | h) | h) | h <;> subst h <;> decide

theorem skipWs_append (pre s : List Char) (hpre : AllWs pre) :
    skipWs (pre ++ s) = skipWs s := by
  induction pre with
  | nil => rfl
  | cons c t ih =>
    have hc : isspace c = true := hpre c (List.mem_cons_self _ _)
    have ht : AllWs t := fun d hd => hpre d (List.mem_cons_of_mem _ hd)
    simp only [skipWs, List.cons_append, List.dropWhile_cons, hc, if_true]
    exact ih ht

theorem skipWs_cons (c : Char) (s : List Char) (hc : isspace c = false) :
    skipWs (c :: s) = c :: s := by
  simp [skipWs, List.dropWhile_cons, hc]

theorem takeWhile_append_stop (p : Char → Bool) (s : List Char) (w : Char) (rest : List Char)
    (hw : p w = false) :
    (s ++ w :: rest).takeWhile p = s.takeWhile p ∧
    (s ++ w :: rest).dropWhile p = s.dropWhile p ++ w :: rest := by
  induction s with
  | nil => simp [List.takeWhile_cons, List.dropWhile_cons, hw]
  | cons c t ih =>
    by_cases hc : p c = true
    · simp [List.takeWhile_cons, List.dropWhile_cons, hc, ih.1, ih.2]
    · simp [List.takeWhile_cons, List.dropWhile_cons, hc]

theorem takeWhile_all (p : Char → Bool) (ds : List Char) (w : Char) (rest : List Char)
    (hds : ∀ c ∈ ds, p c = true) (hw : p w = false) :
    (ds ++ w :: rest).takeWhile p = ds ∧ (ds ++ w :: rest).dropWhile p = w :: rest := by
  induction ds with
  | nil => simp [List.takeWhile_cons, List.dropWhile_cons, hw]
  | cons c t ih =>
    have hc : p c = true := hds c (List.mem_cons_self _ _)
    have ht := ih (fun d hd => hds d (List.mem_cons_of_mem _ hd))
    simp [List.takeWhile_cons, List.dropWhile_cons, hc, ht.1, ht.2]

/-- `%d` on the decimal text of an integer that is followed by white space. -/
theorem fscanf_d_writeInt (pre : List Char) (z : Int) (w : Char) (rest : List Char)
    (hpre : AllWs pre) (hw : isspace w = true) :
    fscanf_d (pre ++ (writeInt z ++ w :: rest)) = some (z, w :: rest) := by
  obtain ⟨hwd, -, -, -⟩ := space_stops w hw
  unfold fscanf_d
  rw [skipWs_append _ _ hpre]
  unfold writeInt
  by_cases hz : z < 0
  · obtain ⟨hne, hall, hv⟩ := toDigits_spec z.natAbs
    obtain ⟨h1, h2⟩ := takeWhile_all isdigit _ w rest hall hwd
    rw [if_pos hz, List.cons_append, skipWs_cons _ _ (by decide)]
    simp only [optSign, show issign '-' = true from by decide, if_true, h1, h2, hne, if_false,
      hv]
    congr 2; omega
  · obtain ⟨hne, hall, hv⟩ := toDigits_spec z.toNat
    obtain ⟨h1, h2⟩ := takeWhile_all isdigit _ w rest hall hwd
    rw [if_neg hz]
    obtain ⟨c, t, hct⟩ := List.exists_cons_of_ne_nil hne
    have hcd : isdigit c = true := hall c (by rw [hct]; exact List.mem_cons_self _ _)
    have hcs : isspace c = false ∧ issign c = false := by
      simp only [isdigit, Bool.and_eq_true, decide_eq_true_eq] at hcd
      constructor
      · cases hsp : isspace c with
        | false => rfl
        | true => exact absurd hcd.1 (by
            have := space_stops c hsp
            simp only [isdigit, Bool.and_eq_false_iff, decide_eq_false_iff_not] at this
            rcases this.1 with h | h
            · exact h
            · exact absurd hcd.2 h)
      · cases hsg : issign c with
        | false => rfl
        | true =>
          simp only [issign, Bool.or_eq_true, decide_eq_true_eq] at hsg
          rcases hsg with h | h <;> subst h <;> exact absurd hcd.1 (by decide)
    rw [hct, List.cons_append, skipWs_cons _ _ hcs.1]
    simp only [optSign, hcs.2]
    rw [← List.cons_append, ← hct]
    simp only [Bool.false_eq_true, if_false, h1, h2, hne, hv]
    congr 2
    simp
    omega

end TokenReads

section FloatReads

theorem optSign_append (s : List Char) (w : Char) (rest : List Char) (hw : issign w = false) :
    optSign (s ++ w :: rest) = ((optSign s).1, (optSign s).2 ++ w :: rest) := by
  cases s with
  | nil => simp [optSign, hw]
  | cons c t =>
    by_cases hc : issign c = true
    · simp [optSign, hc]
    · simp [optSign, hc]

theorem fracPart_append (s : List Char) (w : Char) (rest : List Char)
    (hw : w ≠ '.') (hwd : isdigit w = false) :
    fracPart (s ++ w :: rest) = ((fracPart s).1, (fracPart s).2 ++ w :: rest) := by
  cases s with
  | nil => simp [fracPart, hw]
  | cons c t =>
    obtain ⟨h1, h2⟩ := takeWhile_append_stop isdigit t w rest hwd
    by_cases hc : c = '.'
    · simp [fracPart, hc, h1, h2]
    · simp [fracPart, hc]

theorem expPart_append (s : List Char) (w : Char) (rest : List Char)
    (hwe : isexp w = false) (hws : issign w = false) (hwd : isdigit w = false) :
    expPart (s ++ w :: rest) = (expPart s).map (fun r => (r.1, r.2 ++ w :: rest)) := by
  cases s with
  | nil => simp [expPart, hwe]
  | cons c t =>
    by_cases hc : isexp c = true
    · have hs := optSign_append t w rest hws
      obtain ⟨h1, h2⟩ := takeWhile_append_stop isdigit (optSign t).2 w rest hwd
      simp only [expPart, List.cons_append, hc, if_true, hs, h1, h2]
      split <;> simp
    · simp [expPart, hc]

/-- More input after a stop character does not change what `%lf` matches. -/
theorem matchFloat_append (s : List Char) (w : Char) (rest : List Char)
    (hw : isspace w = true) :
    matchFloat (s ++ w :: rest) = (matchFloat s).map (fun r => (r.1, r.2 ++ w :: rest)) := by
  obtain ⟨hwd, hws, hwe, hwp⟩ := space_stops w hw
  have hs := optSign_append s w rest hws
  obtain ⟨h1, h2⟩ := takeWhile_append_stop isdigit (optSign s).2 w rest hwd
  have hf := fracPart_append ((optSign s).2.dropWhile isdigit) w rest hwp hwd
  have he := expPart_append (fracPart ((optSign s).2.dropWhile isdigit)).2 w rest hwe hws hwd
  simp only [matchFloat, hs, h1, h2, hf, he]
  split
  · rfl
  · cases expPart (fracPart ((optSign s).2.dropWhile isdigit)).2 with
    | none => rfl
    | some r => rfl

/-- A floating literal does not start with white space. -/
theorem matchFloat_space (c : Char) (t : List Char) (hc : isspace c = true) :
    matchFloat (c :: t) = none := by
  obtain ⟨hwd, hws, hwe, hwp⟩ := space_stops c hc
  simp [matchFloat, optSign, hws, List.takeWhile_cons, List.dropWhile_cons, hwd, fracPart, hwp]

/-- `%lf` on a floating literal that is followed by white space. -/
theorem fscanf_lf_literal {D : Type} (strtod : List Char → D) (pre t : List Char) (w : Char)
    (rest : List Char) (hpre : AllWs pre) (ht : isFloatLit t = true) (hw : isspace w = true) :
    fscanf_lf strtod (pre ++ (t ++ w :: rest)) = some (strtod t, w :: rest) := by
  have hm : matchFloat t = some (t, []) := by simpa [isFloatLit] using ht
  unfold fscanf_lf
  rw [skipWs_append _ _ hpre]
  have hskip : skipWs (t ++ w :: rest) = t ++ w :: rest := by
    cases t with
    | nil => simp [matchFloat, optSign, fracPart] at hm
    | cons c t' =>
      cases hc : isspace c with
      | false => exact skipWs_cons _ _ hc
      | true => rw [matchFloat_space c t' hc] at hm; cases hm
  rw [hskip, matchFloat_append t w rest hw, hm]
  rfl

/-- No conversion succeeds on an input that is dead. -/
theorem fscanf_dead {D : Type} (strtod : List Char → D) (pre junk : List Char)
    (hpre : AllWs pre) (hj : Dead junk) :
    fscanf_d (pre ++ junk) = none ∧ fscanf_lf strtod (pre ++ junk) = none := by
  unfold fscanf_d fscanf_lf
  rw [skipWs_append _ _ hpre]
  unfold Dead at hj
  cases hs : skipWs junk with
  | nil => simp [optSign, matchFloat, fracPart]
  | cons c t =>
    rw [hs] at hj
    obtain ⟨hd, hsg, hp, -⟩ := hj
    simp [optSign, matchFloat, fracPart, hsg, hd, hp, List.takeWhile_cons, List.dropWhile_cons]

end FloatReads

section Steps

variable {D : Type}

theorem FscanfOrDie_flt (strtod : List Char → D) (pre t : List Char) (w : Char)
    (rest : List Char) (hpre : AllWs pre) (ht : isFloatLit t = true) (hw : isspace w = true) :
    BALProblem.FscanfOrDie (fscanf_lf strtod) (pre ++ (t ++ w :: rest))
      = Except.ok (strtod t, w :: rest) := by
  rw [FscanfOrDie_ok]; exact fscanf_lf_literal strtod pre t w rest hpre ht hw

theorem FscanfOrDie_dead (strtod : List Char → D) (pre junk : List Char)
    (hpre : AllWs pre) (hj : Dead junk) :
    BALProblem.FscanfOrDie fscanf_d (pre ++ junk) = Except.error Fault.fatal ∧
    BALProblem.FscanfOrDie (fscanf_lf strtod) (pre ++ junk) = Except.error Fault.fatal := by
  obtain ⟨h1, h2⟩ := fscanf_dead strtod pre junk hpre hj
  simp [BALProblem.FscanfOrDie, h1, h2, throw, throwThe, MonadExceptOf.throw]

theorem allWs_single (w : Char) (hw : isspace w = true) : AllWs [w] := by
  intro c hc
  rw [List.mem_singleton.1 hc]; exact hw

end Steps

section LoopsOnText

variable {D : Type}

theorem set_append_replicate {α : Type} (A : List α) (m j : Nat) (d v : α)
    (hA : A.length = m) :
    (A ++ List.replicate (j + 1) d).set m v = (A ++ [v]) ++ List.replicate j d := by
  subst hA
  induction A with
  | nil => simp [List.replicate_succ]
  | cons a t ih => simp [ih]

theorem flatMap_pair_length {α β : Type} (f g : α → β) (l : List α) :
    (l.flatMap (fun r => [f r, g r])).length = 2 * l.length := by
  induction l with
  | nil => rfl
  | cons a t ih =>
    rw [List.flatMap_cons, List.length_append, ih]
    simp only [List.length_cons, List.length_nil]
    omega

/-- The body of the second loop on the line of a value. -/
theorem readParameter_value (strtod : List Char → D) (i : Nat) (s : BALProblem D)
    (pre t more : List Char) (hpre : AllWs pre) (ht : isFloatLit t = true) :
    BALProblem.readParameter strtod i (s, pre ++ (t ++ '\n' :: more))
      = Except.ok ({ s with parameters_ := s.parameters_.set i (strtod t) }, '\n' :: more) := by
  have a := FscanfOrDie_flt strtod pre t '\n' more hpre ht (by decide)
  simp only [BALProblem.readParameter, a, bind, Except.bind, pure, Except.pure]

/-- The second loop on the lines of the values `v`, the values `done`
having been stored already. -/
theorem readParameters_values [Inhabited D] (strtod : List Char → D) (s : BALProblem D)
    (tail : List Char) :
    ∀ (v done : List (List Char)) (pre : List Char), AllWs pre →
      (∀ t ∈ v, isFloatLit t = true) →
      ∃ pre', AllWs pre' ∧
        forLoopFrom (BALProblem.readParameter strtod) v.length done.length
          ({ s with parameters_ := done.map strtod ++ List.replicate v.length default },
            pre ++ (render (valueToks v) ++ tail))
        = Except.ok ({ s with parameters_ := (done ++ v).map strtod }, pre' ++ tail) := by
  intro v
  induction v with
  | nil =>
    intro done pre hpre _
    exact ⟨pre, hpre, by simp [forLoopFrom, pure, Except.pure, valueToks, render]⟩
  | cons t ts ih =>
    intro done pre hpre hv
    have ht : isFloatLit t = true := hv t (List.mem_cons_self _ _)
    obtain ⟨pre', hpre', h⟩ := ih (done ++ [t]) ['\n'] (allWs_single _ (by decide))
      (fun u hu => hv u (List.mem_cons_of_mem _ hu))
    refine ⟨pre', hpre', ?_⟩
    simp only [valueToks, render, Tok.text, List.length_cons, forLoopFrom, List.append_assoc,
      List.cons_append]
    rw [readParameter_value strtod _ _ pre t _ hpre ht]
    simp only [bind, Except.bind]
    rw [set_append_replicate _ _ _ _ _ (by simp)]
    simp only [List.length_append, List.length_singleton, List.map_append, List.map_cons,
      List.map_nil, List.append_assoc, List.singleton_append, List.cons_append,
      List.nil_append] at h ⊢
    exact h

end LoopsOnText

section WholeFile

variable {D : Type}

theorem render_append (a b : List (Tok × Char)) : render (a ++ b) = render a ++ render b := by
  induction a with
  | nil => rfl
  | cons p t ih =>
    obtain ⟨tok, w⟩ := p
    simp [render, ih]

theorem allWs_nil : AllWs [] := by
  intro c hc; cases hc

theorem newArray_nat {α : Type} [Inhabited α] (z : Int) (n : Nat) (h : z = n) :
    (newArray z : Except Fault (List α)) = Except.ok (List.replicate n default) := by
  subst h
  unfold newArray
  rw [if_neg (by omega), Int.toNat_ofNat]
  rfl

theorem writeDataset_text (nc np : Nat) (recs : List Record) (v : List (List Char))
    (extra : List Char) :
    writeDataset nc np recs v ++ extra
      = writeInt nc ++ ' ' :: (writeInt np ++ ' ' :: (writeInt recs.length ++ '\n' ::
          (render (recordToks recs) ++ (render (valueToks v) ++ extra)))) := by
  simp [writeDataset, datasetToks, headerToks, render_append, render, Tok.text]

end WholeFile

/-! ## Lists of records and of values -/

section RoundTrip

variable {D : Type}

theorem flatMap_pair_getElem? {α β : Type} (f g : α → β) :
    ∀ (l : List α) (i : Nat) (hi : i < l.length),
      (l.flatMap (fun r => [f r, g r]))[2 * i]? = some (f (l.get ⟨i, hi⟩)) ∧
      (l.flatMap (fun r => [f r, g r]))[2 * i + 1]? = some (g (l.get ⟨i, hi⟩)) := by
  intro l
  induction l with
  | nil => intro i hi; cases hi
  | cons a t ih =>
    intro i hi
    cases i with
    | zero => simp [List.flatMap_cons]
    | succ j =>
      have hj : j < t.length := by simpa using hi
      have e1 : 2 * (j + 1) = (2 * j + 1) + 1 := by ring
      obtain ⟨h1, h2⟩ := ih j hj
      rw [e1, List.flatMap_cons]
      simpa using ⟨h1, h2⟩

theorem sample_wellFormed : WellFormed sampleRecords sampleValues := by
  unfold WellFormed
  decide

end RoundTrip

/-! ## Claim C9: the range of the stored indices -/

section IndexRange

variable {D : Type}

end IndexRange

/-! ## Claim C8: malformed input that loads -/

section Malformed

variable {D : Type}

/-- C8 as stated fails at `shortFile`: the file has 6 tokens where its header
requires 7, its fifth token `0.5` stands where an integer is required and is
no integer literal, and yet `LoadFile` returns `true`: `%d` converts the `0`
of `0.5` and the next `%lf` converts the rest, `.5`. -/
theorem LoadFile_accepts_short_file :
    wsTokens shortFile
      = ["0".toList, "0".toList, "1".toList, "0".toList, "0.5".toList, "1.0".toList] ∧
    (wsTokens shortFile).length < 3 + 4 * 1 + 9 * 0 + 3 * 0 ∧
    isIntLit "0.5".toList = false ∧
    BALProblem.LoadFile id (BALProblem.init (List Char)) (some shortFile)
      = Except.ok (true, BALProblem.mk 0 0 1 0 [0] [0] [".5".toList, "1.0".toList] []) ∧
    BALProblem.LoadFileVia fscanf_d_int id (BALProblem.init (List Char)) (some shortFile)
      = Except.ok (true, BALProblem.mk 0 0 1 0 [0] [0] [".5".toList, "1.0".toList] []) :=
  ⟨by decide, by decide, by decide, by rfl, by rfl⟩

end Malformed

section Truncated

variable {D : Type}

/-- The second loop on value lines that are cut off before the last value. -/
theorem readParameters_cut (strtod : List Char → D) (junk : List Char) (hj : Dead junk) :
    ∀ (v : List (List Char)) (i : Nat) (s : BALProblem D) (pre : List Char) (j : Nat),
      AllWs pre → (∀ t ∈ v, isFloatLit t = true) → j < v.length →
      forLoopFrom (BALProblem.readParameter strtod) v.length i
          (s, pre ++ (render ((valueToks v).take j) ++ junk))
        = Except.error Fault.fatal := by
  intro v
  induction v with
  | nil => intro i s pre j _ _ h; simp at h
  | cons t ts ih =>
    intro i s pre j hpre hwf hlt
    have ht := hwf t (List.mem_cons_self _ _)
    simp only [List.length_cons, forLoopFrom]
    cases j with
    | zero =>
      simp only [valueToks, List.take, render, List.nil_append, BALProblem.readParameter,
        (FscanfOrDie_dead strtod pre junk hpre hj).2, bind, Except.bind]
    | succ j' =>
      have hstep := readParameter_value strtod i s pre t
        (render ((valueToks ts).take j') ++ junk) hpre ht
      simp only [valueToks, List.take_succ_cons, render, Tok.text, List.append_assoc,
        List.cons_append, hstep, bind, Except.bind]
      exact ih (i + 1) _ ['\n'] j' (allWs_single _ (by decide))
        (fun u hu => hwf u (List.mem_cons_of_mem _ hu)) (by simp at hlt; omega)

theorem recordToks_length (recs : List Record) : (recordToks recs).length = 4 * recs.length := by
  induction recs with
  | nil => rfl
  | cons r rs ih => simp only [recordToks, List.length_cons, ih]; omega

theorem valueToks_length (v : List (List Char)) : (valueToks v).length = v.length := by
  induction v with
  | nil => rfl
  | cons t ts ih => simp only [valueToks, List.length_cons, ih]

end Truncated

/-! ## Claim C16: a file that cannot be opened -/

/-- C16: when `fopen` fails, `LoadFile` returns `false` and the object is
what it was before the call: no count and no array of it has been assigned. -/
theorem LoadFile_unopened {D : Type} [Inhabited D] (strtod : List Char → D)
    (self : BALProblem D) :
    BALProblem.LoadFile strtod self none = Except.ok (false, self) := by
  rfl

/-! ## Claim C14: the toy cost function -/

/-- C14: for every scalar `x` the operator of `HelloWorldCostFunctor` returns
`true` and the residual `10 - x`; the cost function made by
`CreateHelloWorldCostFunction` has one residual and one parameter block, of
size 1; at `x = 7` the residual is 3. -/
theorem helloWorld_residual {T : Type} [Ring T] (x : T) :
    CreateHelloWorldCostFunction.functor.operator_call ![x] = (true, ![10 - x]) ∧
    CreateHelloWorldCostFunction.kNumResiduals = 1 ∧
    CreateHelloWorldCostFunction.Ns = [1] ∧
    CreateHelloWorldCostFunction.functor.operator_call ![(7 : T)] = (true, ![3]) := by
  refine ⟨rfl, rfl, rfl, ?_⟩
  simp only [HelloWorldCostFunctor.operator_call, Matrix.cons_val_zero]
  norm_num

/-! ## Claim C15: a file with more tokens than its header declares -/

section ExtraTokens

variable {D : Type}

end ExtraTokens

/-! ## Claim C11: an observation number out of range -/

section OutOfRange

variable {D : Type}

theorem arrayGet_outside {α : Type} (a : List α) (i : Int)
    (hi : i < 0 ∨ (a.length : Int) ≤ i) : arrayGet a i = Except.error Fault.out_of_bounds := by
  unfold arrayGet
  by_cases h0 : i < 0
  · rw [if_pos h0]; rfl
  · rw [if_neg h0, List.getElem?_eq_none (by omega)]
    rfl

/-- C11 as stated fails at `sampleDataset`, which has two observations: for
`i = 2` and for `i = -1` each of the four lambdas, and each of the two
methods, reads `camera_index_[i]` or `point_index_[i]` outside the array, an
undefined access for which no error is raised. -/
theorem out_of_range_access_unchecked :
    LoadedDataset id sampleDataset ∧ sampleDataset.num_observations_ = 2 ∧
    Fault.out_of_bounds.isError = false ∧
    add_pybinded_ceres_examples.camera_index sampleDataset 2
      = Except.error Fault.out_of_bounds ∧
    add_pybinded_ceres_examples.point_index sampleDataset 2
      = Except.error Fault.out_of_bounds ∧
    add_pybinded_ceres_examples.mutable_cameras_for_observation sampleDataset 2
      = Except.error Fault.out_of_bounds ∧
    add_pybinded_ceres_examples.mutable_point_for_observation sampleDataset 2
      = Except.error Fault.out_of_bounds ∧
    sampleDataset.mutable_camera_for_observation 2 = Except.error Fault.out_of_bounds ∧
    sampleDataset.mutable_point_for_observation 2 = Except.error Fault.out_of_bounds ∧
    add_pybinded_ceres_examples.camera_index sampleDataset (-1)
      = Except.error Fault.out_of_bounds ∧
    add_pybinded_ceres_examples.point_index sampleDataset (-1)
      = Except.error Fault.out_of_bounds ∧
    add_pybinded_ceres_examples.mutable_cameras_for_observation sampleDataset (-1)
      = Except.error Fault.out_of_bounds ∧
    add_pybinded_ceres_examples.mutable_point_for_observation sampleDataset (-1)
      = Except.error Fault.out_of_bounds :=
  ⟨sampleDataset_loaded, by rfl, by rfl, by rfl, by rfl, by rfl, by rfl, by rfl, by rfl,
    by rfl, by rfl, by rfl, by rfl⟩

/-- C11, amended: in a loaded dataset, for every `i` outside
`[0, num_observations_)`, each of `camera_index(i)`, `point_index(i)`,
`mutable_cameras_for_observation(i)` and `mutable_point_for_observation(i)`,
and each of the two methods behind them, reads its index array outside its
bounds: the access is undefined, no element of the array is returned and no
error is raised for it. -/
theorem out_of_range_access_undefined [Inhabited D] (strtod : List Char → D)
    (s : BALProblem D) (hs : LoadedDataset strtod s) (i : Int)
    (hi : i < 0 ∨ s.num_observations_ ≤ i) :
    add_pybinded_ceres_examples.camera_index s i = Except.error Fault.out_of_bounds ∧
    add_pybinded_ceres_examples.point_index s i = Except.error Fault.out_of_bounds ∧
    add_pybinded_ceres_examples.mutable_cameras_for_observation s i
      = Except.error Fault.out_of_bounds ∧
    add_pybinded_ceres_examples.mutable_point_for_observation s i
      = Except.error Fault.out_of_bounds ∧
    s.mutable_camera_for_observation i = Except.error Fault.out_of_bounds ∧
    s.mutable_point_for_observation i = Except.error Fault.out_of_bounds ∧
    Fault.out_of_bounds.isError = false := by
  obtain ⟨nc, np, no, -, -, hno, -, hcl, hpl, -⟩ := hs.sizes
  have hc : arrayGet s.camera_index_ i = Except.error Fault.out_of_bounds :=
    arrayGet_outside _ _ (by omega)
  have hp : arrayGet s.point_index_ i = Except.error Fault.out_of_bounds :=
    arrayGet_outside _ _ (by omega)
  refine ⟨hc, hp, ?_, ?_, ?_, ?_, rfl⟩
  · simp only [add_pybinded_ceres_examples.mutable_cameras_for_observation, hc, bind,
      Except.bind]
  · simp only [add_pybinded_ceres_examples.mutable_point_for_observation, hp, bind,
      Except.bind]
  · simp only [BALProblem.mutable_camera_for_observation, hc, bind, Except.bind]
  · simp only [BALProblem.mutable_point_for_observation, hp, bind, Except.bind]

/-- The amended C11 at `sampleDataset` and `i = 5`. -/
theorem out_of_range_access_undefined_witness :
    LoadedDataset id sampleDataset ∧
    ((5 : Int) < 0 ∨ sampleDataset.num_observations_ ≤ 5) ∧
    add_pybinded_ceres_examples.camera_index sampleDataset 5
      = Except.error Fault.out_of_bounds ∧
    add_pybinded_ceres_examples.point_index sampleDataset 5
      = Except.error Fault.out_of_bounds ∧
    add_pybinded_ceres_examples.mutable_cameras_for_observation sampleDataset 5
      = Except.error Fault.out_of_bounds ∧
    add_pybinded_ceres_examples.mutable_point_for_observation sampleDataset 5
      = Except.error Fault.out_of_bounds ∧
    sampleDataset.mutable_camera_for_observation 5 = Except.error Fault.out_of_bounds ∧
    sampleDataset.mutable_point_for_observation 5 = Except.error Fault.out_of_bounds ∧
    Fault.out_of_bounds.isError = false :=
  ⟨sampleDataset_loaded, by decide,
    out_of_range_access_undefined id sampleDataset sampleDataset_loaded 5 (by decide)⟩

end OutOfRange

/-! ## Claim C17: the layout of the blocks -/

section Layout

variable {D : Type}

/-- C17: in a loaded dataset, for a camera index `c` in `[0, num_cameras_)` and
a point index `q` in `[0, num_points_)`, the nine offsets
`mutable_cameras() + c * 9 + k` lie in `[0, 9 * num_cameras_)`, the three
offsets `mutable_points() + q * 3 + k` lie in
`[9 * num_cameras_, 9 * num_cameras_ + 3 * num_points_)`, which is inside the
buffer `parameters_`; no offset of a camera block is an offset of a point
block, and the blocks of two distinct cameras, or of two distinct points,
have no offset in common. -/
theorem block_layout [Inhabited D] (strtod : List Char → D) (s : BALProblem D)
    (hs : LoadedDataset strtod s) (c q : Int)
    (hc : 0 ≤ c ∧ c < s.num_cameras_) (hq : 0 ≤ q ∧ q < s.num_points_) :
    (s.parameters_.length : Int) = 9 * s.num_cameras_ + 3 * s.num_points_ ∧
    (∀ k : Int, 0 ≤ k → k < 9 →
      0 ≤ s.mutable_cameras + c * 9 + k ∧
      s.mutable_cameras + c * 9 + k < 9 * s.num_cameras_ ∧
      s.mutable_cameras + c * 9 + k < s.parameters_.length) ∧
    (∀ k : Int, 0 ≤ k → k < 3 →
      9 * s.num_cameras_ ≤ s.mutable_points + q * 3 + k ∧
      s.mutable_points + q * 3 + k < 9 * s.num_cameras_ + 3 * s.num_points_ ∧
      s.mutable_points + q * 3 + k < s.parameters_.length) ∧
    (∀ k k' : Int, 0 ≤ k → k < 9 → 0 ≤ k' → k' < 3 →
      s.mutable_cameras + c * 9 + k ≠ s.mutable_points + q * 3 + k') ∧
    (∀ c' : Int, 0 ≤ c' → c' < s.num_cameras_ → c' ≠ c →
      ∀ k k' : Int, 0 ≤ k → k < 9 → 0 ≤ k' → k' < 9 →
        s.mutable_cameras + c * 9 + k ≠ s.mutable_cameras + c' * 9 + k') ∧
    (∀ q' : Int, 0 ≤ q' → q' < s.num_points_ → q' ≠ q →
      ∀ k k' : Int, 0 ≤ k → k < 3 → 0 ≤ k' → k' < 3 →
        s.mutable_points + q * 3 + k ≠ s.mutable_points + q' * 3 + k') := by
  obtain ⟨nc, np, no, hnc, hnp, -, hlen, -, -, -⟩ := hs.sizes
  simp only [BALProblem.mutable_cameras, BALProblem.mutable_points]
  refine ⟨by omega, ?_, ?_, ?_, ?_, ?_⟩
  · intro k h0 h9; omega
  · intro k h0 h3; omega
  · intro k k' h0 h9 h0' h3; omega
  · intro c' h0 hlt hne k k' hk0 hk9 hk0' hk9'; omega
  · intro q' h0 hlt hne k k' hk0 hk3 hk0' hk3'; omega

/-- C17 at `sampleDataset`, camera 0 and point 1. -/
theorem block_layout_witness :
    LoadedDataset id sampleDataset ∧
    ((0 : Int) ≤ 0 ∧ (0 : Int) < sampleDataset.num_cameras_) ∧
    ((0 : Int) ≤ 1 ∧ (1 : Int) < sampleDataset.num_points_) ∧
    (sampleDataset.parameters_.length : Int)
      = 9 * sampleDataset.num_cameras_ + 3 * sampleDataset.num_points_ ∧
    (∀ k : Int, 0 ≤ k → k < 3 →
      9 * sampleDataset.num_cameras_ ≤ sampleDataset.mutable_points + 1 * 3 + k ∧
      sampleDataset.mutable_points + 1 * 3 + k
        < 9 * sampleDataset.num_cameras_ + 3 * sampleDataset.num_points_ ∧
      sampleDataset.mutable_points + 1 * 3 + k < sampleDataset.parameters_.length) :=
  have h := block_layout id sampleDataset sampleDataset_loaded 0 1 (by decide) (by decide)
  ⟨sampleDataset_loaded, by decide, by decide, h.1, h.2.2.1⟩

end Layout

/-! ## Claim C12: a point on the optical axis -/

section OpticalAxis

variable {K : Type} [Field K]

theorem angleAxisOf_zero (c : Fin 9 → K) (h0 : c 0 = 0) (h1 : c 1 = 0) (h2 : c 2 = 0) :
    angleAxisOf c = fun _ => 0 := by
  funext i
  fin_cases i
  · exact h0
  · exact h1
  · exact h2

/-- C12: let the rotation of the zero angle-axis vector be the identity. For
every observed pixel `(ox, oy)`, every camera block with zero rotation vector
and every point `X` whose translate `X + c[3..5]` has first and second
coordinate 0 and third coordinate not 0, whatever the focal length and the
distortion, the residual is `(-ox, -oy)`; so it is for the camera with
translation `(0, 0, -5)`, focal length 1 and distortion `(0, 0)` at the point
`(0, 0, 0)`, whose transformed point has the third coordinate `-5`. -/
theorem residual_on_optical_axis [CharZero K]
    (rotate : (Fin 3 → K) → (Fin 3 → K) → (Fin 3 → K))
    (hrot : ∀ X, rotate (fun _ => 0) X = X) (ox oy : K)
    (c : Fin 9 → K) (X : Fin 3 → K)
    (h0 : c 0 = 0) (h1 : c 1 = 0) (h2 : c 2 = 0)
    (hx : X 0 + c 3 = 0) (hy : X 1 + c 4 = 0) (_hz : X 2 + c 5 ≠ 0) :
    SnavelyReprojectionError.operator_call rotate ⟨ox, oy⟩ c X = (true, ![-ox, -oy]) ∧
    transformed rotate axisCamera origin 2 = -5 ∧
    transformed rotate (axisCamera : Fin 9 → K) origin 2 ≠ 0 ∧
    SnavelyReprojectionError.operator_call rotate ⟨ox, oy⟩ axisCamera origin
      = (true, ![-ox, -oy]) := by
  have ha : angleAxisOf (axisCamera : Fin 9 → K) = fun _ => 0 :=
    angleAxisOf_zero _ (by simp [axisCamera]) (by simp [axisCamera]) (by simp [axisCamera])
  have ht : transformed rotate (axisCamera : Fin 9 → K) origin 2 = -5 := by
    simp [transformed, ha, hrot, axisCamera, origin]
  refine ⟨?_, ht, ?_, ?_⟩
  · simp only [SnavelyReprojectionError.operator_call, angleAxisOf_zero c h0 h1 h2, hrot, hx,
      hy]
    simp
  · rw [ht]; norm_num
  · simp only [SnavelyReprojectionError.operator_call, ha, hrot]
    simp [axisCamera, origin]

theorem firstOrderRotate_zero (X : Fin 3 → K) : firstOrderRotate (fun _ => 0) X = X := by
  funext i
  fin_cases i <;> simp [firstOrderRotate]

/-- C12 at `shiftedCamera`, `shiftedPoint` and the pixel `(3, 4)`. -/
theorem residual_on_optical_axis_witness :
    (∀ X : Fin 3 → ℚ, firstOrderRotate (fun _ => 0) X = X) ∧
    shiftedCamera 0 = 0 ∧ shiftedCamera 1 = 0 ∧ shiftedCamera 2 = 0 ∧
    shiftedPoint 0 + shiftedCamera 3 = 0 ∧ shiftedPoint 1 + shiftedCamera 4 = 0 ∧
    shiftedPoint 2 + shiftedCamera 5 ≠ 0 ∧
    SnavelyReprojectionError.operator_call firstOrderRotate ⟨3, 4⟩ shiftedCamera shiftedPoint
      = (true, ![-3, -4]) :=
  ⟨firstOrderRotate_zero, by simp [shiftedCamera], by simp [shiftedCamera],
    by simp [shiftedCamera], by simp [shiftedCamera, shiftedPoint],
    by simp [shiftedCamera, shiftedPoint], by simp [shiftedCamera, shiftedPoint]; norm_num,
    (residual_on_optical_axis firstOrderRotate firstOrderRotate_zero 3 4 shiftedCamera
      shiftedPoint (by simp [shiftedCamera]) (by simp [shiftedCamera])
      (by simp [shiftedCamera]) (by simp [shiftedCamera, shiftedPoint])
      (by simp [shiftedCamera, shiftedPoint])
      (by simp [shiftedCamera, shiftedPoint]; norm_num)).1⟩

end OpticalAxis

/-! ## Claim C13: radial distortion enlarges the predicted pixel -/

section Distortion

variable {K : Type}

theorem residual_eq_predicted_sub [Field K]
    (rotate : (Fin 3 → K) → (Fin 3 → K) → (Fin 3 → K)) (c : Fin 9 → K) (X : Fin 3 → K)
    (ox oy : K) :
    SnavelyReprojectionError.operator_call rotate ⟨ox, oy⟩ c X
      = (true, ![predicted rotate c X 0 - ox, predicted rotate c X 1 - oy]) := by
  simp [SnavelyReprojectionError.operator_call, predicted]

/-- The predicted pixel in closed form, for a camera whose entry 7 is set. -/
theorem predicted_update_l1 [Field K]
    (rotate : (Fin 3 → K) → (Fin 3 → K) → (Fin 3 → K)) (c : Fin 9 → K) (X : Fin 3 → K)
    (l1 : K) (hl2 : c 8 = 0) :
    predicted rotate (Function.update c 7 l1) X 0
      = c 6 * (1 + (projection rotate c X 0 * projection rotate c X 0
          + projection rotate c X 1 * projection rotate c X 1) * l1) * projection rotate c X 0 ∧
    predicted rotate (Function.update c 7 l1) X 1
      = c 6 * (1 + (projection rotate c X 0 * projection rotate c X 0
          + projection rotate c X 1 * projection rotate c X 1) * l1)
          * projection rotate c X 1 := by
  have ha : angleAxisOf (Function.update c 7 l1) = angleAxisOf c := by
    funext i
    fin_cases i <;> rfl
  have h3 : Function.update c 7 l1 3 = c 3 := Function.update_noteq (by decide) _ _
  have h4 : Function.update c 7 l1 4 = c 4 := Function.update_noteq (by decide) _ _
  have h5 : Function.update c 7 l1 5 = c 5 := Function.update_noteq (by decide) _ _
  have h6 : Function.update c 7 l1 6 = c 6 := Function.update_noteq (by decide) _ _
  have h7 : Function.update c 7 l1 7 = l1 := Function.update_same _ _ _
  have h8 : Function.update c 7 l1 8 = 0 := by
    rw [Function.update_noteq (by decide), hl2]
  simp only [predicted, SnavelyReprojectionError.operator_call, projection, transformed, ha,
    h3, h4, h5, h6, h7, h8, Matrix.cons_val_zero, Matrix.cons_val_one, Matrix.head_cons,
    Matrix.cons_val_two, Matrix.tail_cons, zero_mul, add_zero, sub_zero]
  exact ⟨trivial, trivial⟩

theorem abs_lt_abs_scaled [LinearOrderedField K] (f r l x : K) (hf : f ≠ 0) (hx : x ≠ 0)
    (hr : 0 < r) (hl : 0 < l) : |f * (1 + r * 0) * x| < |f * (1 + r * l) * x| := by
  have hf' : 0 < |f| := abs_pos.2 hf
  have hx' : 0 < |x| := abs_pos.2 hx
  have hg : 0 < r * l := mul_pos hr hl
  have h1 : |1 + r * l| = 1 + r * l := abs_of_pos (by linarith)
  rw [mul_zero, add_zero, mul_one, abs_mul, abs_mul, abs_mul, h1]
  have : 0 < |f| * |x| := mul_pos hf' hx'
  nlinarith

/-- C13: let the transformed point `p` have `p[2] ≠ 0` and let
`r2 = xp*xp + yp*yp > 0`. For every focal length `c[6] ≠ 0`, `l2 = c[8] = 0`
and every `l1 > 0`, the predicted pixel of the camera with distortion
`(l1, 0)` is strictly larger in absolute value than that of the camera with
distortion `(0, 0)`: in its first coordinate when `xp ≠ 0`, in its second
when `yp ≠ 0`. -/
theorem distortion_enlarges_prediction [LinearOrderedField K]
    (rotate : (Fin 3 → K) → (Fin 3 → K) → (Fin 3 → K)) (c : Fin 9 → K) (X : Fin 3 → K)
    (l1 : K) (_hp : transformed rotate c X 2 ≠ 0)
    (hr2 : 0 < projection rotate c X 0 * projection rotate c X 0
      + projection rotate c X 1 * projection rotate c X 1)
    (hf : c 6 ≠ 0) (hl2 : c 8 = 0) (hl1 : 0 < l1) :
    (projection rotate c X 0 ≠ 0 →
      |predicted rotate (Function.update c 7 0) X 0|
        < |predicted rotate (Function.update c 7 l1) X 0|) ∧
    (projection rotate c X 1 ≠ 0 →
      |predicted rotate (Function.update c 7 0) X 1|
        < |predicted rotate (Function.update c 7 l1) X 1|) := by
  obtain ⟨a0, a1⟩ := predicted_update_l1 rotate c X 0 hl2
  obtain ⟨b0, b1⟩ := predicted_update_l1 rotate c X l1 hl2
  rw [a0, a1, b0, b1]
  exact ⟨fun hx => abs_lt_abs_scaled _ _ _ _ hf hx hr2 hl1,
    fun hy => abs_lt_abs_scaled _ _ _ _ hf hy hr2 hl1⟩

/-- C13 at the transformed point `(1, 1, -10)`: the identity for rotation,
no translation, focal length 3, `l1 = 3`; the predicted pixel goes from `(3/10, 3/10)` to
`(159/500, 159/500)`. -/
theorem distortion_enlarges_prediction_witness :
    transformed noRotation turnedCamera farPoint 2 ≠ 0 ∧
    (0 : ℚ) < projection noRotation turnedCamera farPoint 0
        * projection noRotation turnedCamera farPoint 0
      + projection noRotation turnedCamera farPoint 1
        * projection noRotation turnedCamera farPoint 1 ∧
    turnedCamera 6 ≠ 0 ∧ turnedCamera 8 = 0 ∧ (0 : ℚ) < 3 ∧
    (projection noRotation turnedCamera farPoint 0 ≠ 0 →
      |predicted noRotation (Function.update turnedCamera 7 0) farPoint 0|
        < |predicted noRotation (Function.update turnedCamera 7 3) farPoint 0|) ∧
    (projection noRotation turnedCamera farPoint 1 ≠ 0 →
      |predicted noRotation (Function.update turnedCamera 7 0) farPoint 1|
        < |predicted noRotation (Function.update turnedCamera 7 3) farPoint 1|) := by
  have h2 : transformed noRotation turnedCamera farPoint 2 ≠ 0 := by
    simp [transformed, noRotation, turnedCamera, farPoint]
  have hr : (0 : ℚ) < projection noRotation turnedCamera farPoint 0
        * projection noRotation turnedCamera farPoint 0
      + projection noRotation turnedCamera farPoint 1
        * projection noRotation turnedCamera farPoint 1 := by
    simp [projection, transformed, noRotation, turnedCamera, farPoint]
  have h6 : turnedCamera 6 ≠ 0 := by simp [turnedCamera]
  have h8 : turnedCamera 8 = 0 := by simp [turnedCamera]
  exact ⟨h2, hr, h6, h8, by norm_num,
    distortion_enlarges_prediction noRotation turnedCamera farPoint 3 h2 hr h6 h8
      (by norm_num)⟩

end Distortion

/-! ## Claim C18: the scale of the scene -/

section Gauge

variable {K : Type} [Field K]

theorem angleAxisOf_scaleTranslation (s : K) (c : Fin 9 → K) :
    angleAxisOf (scaleTranslation s c) = angleAxisOf c := by
  funext i
  fin_cases i <;> rfl

/-- C18: let the rotation be homogeneous in the point. For every scalar
`s ≠ 0`, camera block `c`, point `X` and observed pixel, if the transformed
point `p = rotate(c[0..2], X) + c[3..5]` has `p[2] ≠ 0`, the operator gives on
the camera with translation `s * c[3..5]` and the point `s * X` the two
residuals that it gives on `c` and `X`. -/
theorem residual_scale_invariant
    (rotate : (Fin 3 → K) → (Fin 3 → K) → (Fin 3 → K))
    (hlin : ∀ (w : Fin 3 → K) (a : K) (X : Fin 3 → K),
      rotate w (fun i => a * X i) = fun i => a * rotate w X i)
    (s : K) (hs : s ≠ 0) (c : Fin 9 → K) (X : Fin 3 → K) (ox oy : K)
    (_hp : transformed rotate c X 2 ≠ 0) :
    SnavelyReprojectionError.operator_call rotate ⟨ox, oy⟩ (scaleTranslation s c)
        (fun i => s * X i)
      = SnavelyReprojectionError.operator_call rotate ⟨ox, oy⟩ c X := by
  have e3 : scaleTranslation s c 3 = s * c 3 := by simp [scaleTranslation]
  have e4 : scaleTranslation s c 4 = s * c 4 := by simp [scaleTranslation]
  have e5 : scaleTranslation s c 5 = s * c 5 := by simp [scaleTranslation]
  have e6 : scaleTranslation s c 6 = c 6 := by simp [scaleTranslation]
  have e7 : scaleTranslation s c 7 = c 7 := by simp [scaleTranslation]
  have e8 : scaleTranslation s c 8 = c 8 := by simp [scaleTranslation]
  have hx : ∀ a b : K, -(s * a + s * b) / (s * rotate (angleAxisOf c) X 2 + s * c 5)
      = -(a + b) / (rotate (angleAxisOf c) X 2 + c 5) := by
    intro a b
    rw [← mul_add, ← mul_add, ← mul_neg, mul_div_mul_left _ _ hs]
  simp only [SnavelyReprojectionError.operator_call, angleAxisOf_scaleTranslation, hlin, e3,
    e4, e5, e6, e7, e8, hx]

theorem firstOrderRotate_smul (w : Fin 3 → K) (a : K) (X : Fin 3 → K) :
    firstOrderRotate w (fun i => a * X i) = fun i => a * firstOrderRotate w X i := by
  funext i
  fin_cases i <;> simp [firstOrderRotate] <;> ring

end Gauge

theorem oblique_depth : transformed firstOrderRotate obliqueCamera farPoint 2 = -7 := by
  have a0 : angleAxisOf obliqueCamera 0 = 0 := rfl
  have a1 : angleAxisOf obliqueCamera 1 = 0 := rfl
  simp [transformed, firstOrderRotate, a0, a1, obliqueCamera, farPoint]
  norm_num

/-- C18 at `obliqueCamera`, the point `(1, 1, -10)`, the pixel `(1, 2)` and
the scale 2, for the rotation of first order. -/
theorem residual_scale_invariant_witness :
    (∀ (w : Fin 3 → ℚ) (a : ℚ) (X : Fin 3 → ℚ),
      firstOrderRotate w (fun i => a * X i) = fun i => a * firstOrderRotate w X i) ∧
    (2 : ℚ) ≠ 0 ∧ transformed firstOrderRotate obliqueCamera farPoint 2 ≠ 0 ∧
    SnavelyReprojectionError.operator_call firstOrderRotate ⟨1, 2⟩
        (scaleTranslation 2 obliqueCamera) (fun i => 2 * farPoint i)
      = SnavelyReprojectionError.operator_call firstOrderRotate ⟨1, 2⟩ obliqueCamera farPoint :=
  ⟨firstOrderRotate_smul, by norm_num, by rw [oblique_depth]; norm_num,
    residual_scale_invariant firstOrderRotate firstOrderRotate_smul 2 (by norm_num)
      obliqueCamera farPoint 1 2 (by rw [oblique_depth]; norm_num)⟩

/-! ## The loader with `%d` stored as a 32-bit `int` -/

section StoredInts

variable {D : Type}

theorem storedInt_of_fits (z : Int) (h : FitsInt z) : storedInt z = z := by
  unfold FitsInt at h
  unfold storedInt
  simp only [max_def, min_def]
  split_ifs <;> omega

theorem storedRecord_of_fits (r : Record) (hc : FitsInt r.cam) (hp : FitsInt r.pt) :
    storedRecord r = r := by
  unfold storedRecord
  rw [storedInt_of_fits _ hc, storedInt_of_fits _ hp]

/-- With `fscanf_d` for `%d`, `LoadFileVia` is `LoadFile`. -/
theorem LoadFileVia_fscanf_d [Inhabited D] (strtod : List Char → D) (self : BALProblem D)
    (file : Option (List Char)) :
    BALProblem.LoadFileVia fscanf_d strtod self file = BALProblem.LoadFile strtod self file := by
  rfl

theorem FscanfOrDie_stored (pre : List Char) (z : Int) (w : Char) (rest : List Char)
    (hpre : AllWs pre) (hw : isspace w = true) :
    BALProblem.FscanfOrDie fscanf_d_int (pre ++ (writeInt z ++ w :: rest))
      = Except.ok (storedInt z, w :: rest) := by
  rw [FscanfOrDie_ok]
  unfold fscanf_d_int
  rw [fscanf_d_writeInt pre z w rest hpre hw]

/-- The body of the first loop on the line of a record, `%d` storing an `int`. -/
theorem readObservationVia_record (strtod : List Char → D) (i : Nat) (s : BALProblem D)
    (pre : List Char) (r : Record) (more : List Char) (hpre : AllWs pre)
    (hx : isFloatLit r.x = true) (hy : isFloatLit r.y = true) :
    BALProblem.readObservationVia fscanf_d_int strtod i
        (s, pre ++ (writeInt r.cam ++ ' ' :: (writeInt r.pt ++ ' ' ::
          (r.x ++ ' ' :: (r.y ++ '\n' :: more)))))
      = Except.ok (storeRecord strtod i (storedRecord r) s, '\n' :: more) := by
  have hsp : isspace ' ' = true := by decide
  have hnl : isspace '\n' = true := by decide
  have a1 := FscanfOrDie_stored pre r.cam ' ' (writeInt r.pt ++ ' ' ::
          (r.x ++ ' ' :: (r.y ++ '\n' :: more))) hpre hsp
  have a2 := FscanfOrDie_stored [' '] r.pt ' ' (r.x ++ ' ' :: (r.y ++ '\n' :: more))
    (allWs_single _ hsp) hsp
  have a3 := FscanfOrDie_flt strtod [' '] r.x ' ' (r.y ++ '\n' :: more)
    (allWs_single _ hsp) hx hsp
  have a4 := FscanfOrDie_flt strtod [' '] r.y '\n' more (allWs_single _ hsp) hy hnl
  simp only [List.singleton_append] at a2 a3 a4
  simp only [BALProblem.readObservationVia, a1, bind, Except.bind, a2, forLoop, forLoopFrom,
    Int.toNat_ofNat, a3, a4, pure, Except.pure, storeRecord, storedRecord]

/-- The first loop on the lines of the records `recs`, `%d` storing an `int`,
the records `done` having been stored already. -/
theorem readObservationsVia_records [Inhabited D] (strtod : List Char → D) (s : BALProblem D)
    (tail : List Char) :
    ∀ (recs done : List Record) (pre : List Char), AllWs pre →
      (∀ r ∈ recs, isFloatLit r.x = true ∧ isFloatLit r.y = true) →
      ∃ pre', AllWs pre' ∧
        forLoopFrom (BALProblem.readObservationVia fscanf_d_int strtod) recs.length done.length
          ({ s with
              camera_index_ := done.map Record.cam ++ List.replicate recs.length default,
              point_index_ := done.map Record.pt ++ List.replicate recs.length default,
              observations_ := done.flatMap (fun r => [strtod r.x, strtod r.y])
                ++ List.replicate (2 * recs.length) default },
            pre ++ (render (recordToks recs) ++ tail))
        = Except.ok ({ s with
              camera_index_ := (done ++ recs.map storedRecord).map Record.cam,
              point_index_ := (done ++ recs.map storedRecord).map Record.pt,
              observations_ := (done ++ recs.map storedRecord).flatMap
                (fun r => [strtod r.x, strtod r.y]) },
            pre' ++ tail) := by
  intro recs
  induction recs with
  | nil =>
    intro done pre hpre _
    exact ⟨pre, hpre, by simp [forLoopFrom, pure, Except.pure, recordToks, render]⟩
  | cons r rs ih =>
    intro done pre hpre hv
    obtain ⟨hx, hy⟩ := hv r (List.mem_cons_self _ _)
    obtain ⟨pre', hpre', h⟩ := ih (done ++ [storedRecord r]) ['\n']
      (allWs_single _ (by decide)) (fun u hu => hv u (List.mem_cons_of_mem _ hu))
    refine ⟨pre', hpre', ?_⟩
    simp only [recordToks, render, Tok.text, List.length_cons, forLoopFrom, List.append_assoc,
      List.cons_append]
    rw [readObservationVia_record strtod _ _ pre r _ hpre hx hy]
    simp only [bind, Except.bind, storeRecord]
    have e2 : 2 * (rs.length + 1) = (2 * rs.length + 1) + 1 := by ring
    have hl := flatMap_pair_length (fun r : Record => strtod r.x) (fun r => strtod r.y) done
    rw [set_append_replicate _ _ _ _ _ (by simp), set_append_replicate _ _ _ _ _ (by simp),
      e2, set_append_replicate _ _ _ _ _ (by simpa using hl),
      set_append_replicate _ _ _ _ _ (by simp [hl])]
    simp only [List.length_append, List.length_singleton, List.map_append, List.map_cons,
      List.map_nil, List.append_assoc, List.singleton_append, List.cons_append,
      List.nil_append, List.flatMap_append, List.flatMap_cons, List.flatMap_nil,
      List.append_nil] at h ⊢
    exact h

end StoredInts

section StoredWholeFile

variable {D : Type}

/-- `LoadFile`, `%d` storing an `int`, on the text of a dataset file the sizes
of whose arrays fit in an `int`, whatever follows the last value: it returns
`true` and leaves the object that the file describes, each index as an `int`
stores it. -/
theorem LoadFileVia_writeDataset [Inhabited D] (strtod : List Char → D) (self : BALProblem D)
    (nc np : Nat) (recs : List Record) (v : List (List Char)) (extra : List Char)
    (hv : v.length = 9 * nc + 3 * np) (hwf : WellFormed recs v)
    (hpar : 9 * nc + 3 * np ≤ 2147483647) (hobs : 2 * recs.length ≤ 2147483647) :
    BALProblem.LoadFileVia fscanf_d_int strtod self (some (writeDataset nc np recs v ++ extra))
      = Except.ok (true, datasetOf strtod nc np (recs.map storedRecord) v) := by
  have hsp : isspace ' ' = true := by decide
  have hnl : isspace '\n' = true := by decide
  have c1 : storedInt (nc : Int) = nc := storedInt_of_fits _ (by unfold FitsInt; omega)
  have c2 : storedInt (np : Int) = np := storedInt_of_fits _ (by unfold FitsInt; omega)
  have c3 : storedInt (recs.length : Int) = recs.length :=
    storedInt_of_fits _ (by unfold FitsInt; omega)
  obtain ⟨pre1, hpre1, h1⟩ := readObservationsVia_records strtod
    ({ self with
        num_cameras_ := nc, num_points_ := np, num_observations_ := recs.length,
        num_parameters_ := 9 * nc + 3 * np,
        parameters_ := List.replicate v.length default } : BALProblem D)
    (render (valueToks v) ++ extra) recs [] ['\n'] (allWs_single _ hnl) hwf.1
  obtain ⟨pre2, hpre2, h2⟩ := readParameters_values strtod
    ({ self with
        num_cameras_ := nc, num_points_ := np, num_observations_ := recs.length,
        num_parameters_ := 9 * nc + 3 * np,
        camera_index_ := (recs.map storedRecord).map Record.cam,
        point_index_ := (recs.map storedRecord).map Record.pt,
        observations_ := (recs.map storedRecord).flatMap
          (fun r => [strtod r.x, strtod r.y]) } : BALProblem D)
    extra v [] pre1 hpre1 hwf.2
  have a1 := FscanfOrDie_stored [] nc ' ' (writeInt np ++ ' ' :: (writeInt recs.length ++ '\n' ::
    (render (recordToks recs) ++ (render (valueToks v) ++ extra)))) allWs_nil hsp
  have a2 := FscanfOrDie_stored [' '] np ' ' (writeInt recs.length ++ '\n' ::
    (render (recordToks recs) ++ (render (valueToks v) ++ extra))) (allWs_single _ hsp) hsp
  have a3 := FscanfOrDie_stored [' '] recs.length '\n'
    (render (recordToks recs) ++ (render (valueToks v) ++ extra)) (allWs_single _ hsp) hnl
  have n1 : (newArray (recs.length : Int) : Except Fault (List Int))
      = Except.ok (List.replicate recs.length default) := newArray_nat _ _ rfl
  have n2 : (newArray (2 * (recs.length : Int)) : Except Fault (List D))
      = Except.ok (List.replicate (2 * recs.length) default) :=
    newArray_nat _ _ (by push_cast; rfl)
  have n3 : (newArray (9 * (nc : Int) + 3 * (np : Int)) : Except Fault (List D))
      = Except.ok (List.replicate v.length default) :=
    newArray_nat _ _ (by rw [hv]; push_cast; rfl)
  have t1 : ((9 * (nc : Int) + 3 * (np : Int))).toNat = v.length := by omega
  simp only [List.nil_append, List.singleton_append, c1, c2, c3] at a1 a2 a3
  simp only [List.map_nil, List.nil_append, List.flatMap_nil, List.length_nil,
    List.singleton_append] at h1 h2
  rw [writeDataset_text]
  simp only [BALProblem.LoadFileVia, a1, bind, Except.bind, a2,
    a3, n1, n2, n3, forLoop, Int.toNat_ofNat, t1, h1, h2, pure, Except.pure, datasetOf,
    List.length_map]

end StoredWholeFile

/-! ## Claim C2: the round trip of the loader -/

section RoundTrip

variable {D : Type}

/-- C2 as stated fails at `wideIndexFile`, the text of the dataset file with
the counts `0 0 1` and the record `(2147483648, 0, 0.5, 0.5)`: `LoadFile`
returns `true` and `camera_index(0)` is `-2147483648`, the 32-bit `int` that
`%d` stores for `2147483648`, not the index written. -/
theorem LoadFile_wraps_wide_index :
    writeDataset 0 0 [⟨2147483648, 0, "0.5".toList, "0.5".toList⟩] [] = wideIndexFile ∧
    WellFormed [⟨2147483648, 0, "0.5".toList, "0.5".toList⟩] [] ∧
    ∃ s : BALProblem (List Char),
      BALProblem.LoadFileVia fscanf_d_int id (BALProblem.init (List Char)) (some wideIndexFile)
        = Except.ok (true, s) ∧
      add_pybinded_ceres_examples.camera_index s 0 = Except.ok (-2147483648) ∧
      (-2147483648 : Int) ≠ 2147483648 :=
  ⟨by rfl, by unfold WellFormed; decide,
    BALProblem.mk 0 0 1 0 [0] [-2147483648] ["0.5".toList, "0.5".toList] [],
    by rfl, by rfl, by decide⟩

theorem map_storedRecord_of_fits (recs : List Record)
    (hidx : ∀ r ∈ recs, FitsInt r.cam ∧ FitsInt r.pt) : recs.map storedRecord = recs := by
  induction recs with
  | nil => rfl
  | cons r rs ih =>
    obtain ⟨hc, hp⟩ := hidx r (List.mem_cons_self _ _)
    rw [List.map_cons, storedRecord_of_fits r hc hp,
      ih (fun u hu => hidx u (List.mem_cons_of_mem _ hu))]

/-- C2, amended: let the sizes `2 * no` and `9 * nc + 3 * np` of the arrays fit
in an `int`, and let every index of the records be a value of the type `int`.
Then `LoadFile` on the text of the dataset file (the counts `nc np no`, the
`no` records in order, then `9 * nc + 3 * np` values in order) returns `true`
and leaves `num_observations() = no`, `camera_index(i)`, `point_index(i)`,
`observations[2i]` and `observations[2i+1]` equal to the entries of record
`i`, and `parameters[k]` equal to the value `k`. A `double` read from a
literal is the `strtod` of its text. -/
theorem LoadFile_round_trip [Inhabited D] (strtod : List Char → D) (self : BALProblem D)
    (nc np : Nat) (recs : List Record) (v : List (List Char))
    (hv : v.length = 9 * nc + 3 * np) (hwf : WellFormed recs v)
    (hpar : 9 * nc + 3 * np ≤ 2147483647) (hobs : 2 * recs.length ≤ 2147483647)
    (hidx : ∀ r ∈ recs, FitsInt r.cam ∧ FitsInt r.pt) :
    ∃ s : BALProblem D,
      BALProblem.LoadFileVia fscanf_d_int strtod self (some (writeDataset nc np recs v))
        = Except.ok (true, s) ∧
      s.num_observations = recs.length ∧
      (∀ (i : Nat) (hi : i < recs.length),
        add_pybinded_ceres_examples.camera_index s i = Except.ok (recs.get ⟨i, hi⟩).cam ∧
        add_pybinded_ceres_examples.point_index s i = Except.ok (recs.get ⟨i, hi⟩).pt ∧
        s.observations[2 * i]? = some (strtod (recs.get ⟨i, hi⟩).x) ∧
        s.observations[2 * i + 1]? = some (strtod (recs.get ⟨i, hi⟩).y)) ∧
      ∀ (k : Nat) (hk : k < v.length), s.parameters_[k]? = some (strtod (v.get ⟨k, hk⟩)) := by
  have h := LoadFileVia_writeDataset strtod self nc np recs v [] hv hwf hpar hobs
  rw [List.append_nil, map_storedRecord_of_fits recs hidx] at h
  refine ⟨datasetOf strtod nc np recs v, h, rfl, ?_, ?_⟩
  · intro i hi
    obtain ⟨h1, h2⟩ := flatMap_pair_getElem? (fun r : Record => strtod r.x)
      (fun r => strtod r.y) recs i hi
    refine ⟨?_, ?_, h1, h2⟩
    · unfold add_pybinded_ceres_examples.camera_index
      rw [arrayGet_ok _ _ i rfl (by simpa [datasetOf] using hi)]
      simp [datasetOf]
    · unfold add_pybinded_ceres_examples.point_index
      rw [arrayGet_ok _ _ i rfl (by simpa [datasetOf] using hi)]
      simp [datasetOf]
  · intro k hk
    simp [datasetOf, hk]

theorem sample_fitsInt : ∀ r ∈ sampleRecords, FitsInt r.cam ∧ FitsInt r.pt := by
  unfold FitsInt
  decide

/-- The amended C2 at the dataset of `sampleFile`. -/
theorem LoadFile_round_trip_witness :
    sampleValues.length = 9 * 1 + 3 * 2 ∧ WellFormed sampleRecords sampleValues ∧
    9 * 1 + 3 * 2 ≤ 2147483647 ∧ 2 * sampleRecords.length ≤ 2147483647 ∧
    (∀ r ∈ sampleRecords, FitsInt r.cam ∧ FitsInt r.pt) ∧
    ∃ s : BALProblem (List Char),
      BALProblem.LoadFileVia fscanf_d_int id (BALProblem.init (List Char))
        (some (writeDataset 1 2 sampleRecords sampleValues)) = Except.ok (true, s) ∧
      s.num_observations = sampleRecords.length ∧
      (∀ (i : Nat) (hi : i < sampleRecords.length),
        add_pybinded_ceres_examples.camera_index s i
          = Except.ok (sampleRecords.get ⟨i, hi⟩).cam ∧
        add_pybinded_ceres_examples.point_index s i
          = Except.ok (sampleRecords.get ⟨i, hi⟩).pt ∧
        s.observations[2 * i]? = some (id (sampleRecords.get ⟨i, hi⟩).x) ∧
        s.observations[2 * i + 1]? = some (id (sampleRecords.get ⟨i, hi⟩).y)) ∧
      ∀ (k : Nat) (hk : k < sampleValues.length),
        s.parameters_[k]? = some (id (sampleValues.get ⟨k, hk⟩)) :=
  ⟨by decide, sample_wellFormed, by decide, by decide, sample_fitsInt,
    LoadFile_round_trip id (BALProblem.init (List Char)) 1 2 sampleRecords sampleValues
      (by decide) sample_wellFormed (by decide) (by decide) sample_fitsInt⟩

end RoundTrip

/-! ## Claim C8: a dataset file that is cut short -/

section TruncatedFile

variable {D : Type}

theorem FscanfOrDie_stored_dead (pre junk : List Char) (hpre : AllWs pre) (hj : Dead junk) :
    BALProblem.FscanfOrDie fscanf_d_int (pre ++ junk) = Except.error Fault.fatal := by
  have h := (fscanf_dead (fun t => t) pre junk hpre hj).1
  simp [BALProblem.FscanfOrDie, fscanf_d_int, h, throw, throwThe, MonadExceptOf.throw]

/-- The body of the first loop on a record line that is cut off. -/
theorem readObservationVia_cut (strtod : List Char → D) (i : Nat) (s : BALProblem D)
    (pre : List Char) (r : Record) (rs : List Record) (junk : List Char) (j : Nat)
    (hpre : AllWs pre) (hx : isFloatLit r.x = true) (hj : Dead junk) (hj4 : j < 4) :
    BALProblem.readObservationVia fscanf_d_int strtod i
        (s, pre ++ (render ((recordToks (r :: rs)).take j) ++ junk))
      = Except.error Fault.fatal := by
  have hsp : isspace ' ' = true := by decide
  have d0 := FscanfOrDie_stored_dead pre junk hpre hj
  have d1 := FscanfOrDie_stored_dead [' '] junk (allWs_single _ hsp) hj
  have e1 := FscanfOrDie_dead strtod [' '] junk (allWs_single _ hsp) hj
  have a1 := FscanfOrDie_stored pre r.cam ' '
  have a2 := FscanfOrDie_stored [' '] r.pt ' '
  have a3 := FscanfOrDie_flt strtod [' '] r.x ' '
  simp only [List.singleton_append] at d1 e1 a2 a3
  interval_cases j
  · simp only [recordToks, List.take, render, List.nil_append, BALProblem.readObservationVia,
      d0, bind, Except.bind]
  · simp only [recordToks, List.take, render, Tok.text, List.nil_append, List.append_assoc,
      List.cons_append, BALProblem.readObservationVia, a1 junk hpre hsp, d1, bind,
      Except.bind]
  · simp only [recordToks, List.take, render, Tok.text, List.nil_append, List.append_assoc,
      List.cons_append, BALProblem.readObservationVia, a1 _ hpre hsp,
      a2 junk (allWs_single _ hsp) hsp, e1.2, bind, Except.bind, forLoop, forLoopFrom,
      Int.toNat_ofNat]
  · simp only [recordToks, List.take, render, Tok.text, List.nil_append, List.append_assoc,
      List.cons_append, BALProblem.readObservationVia, a1 _ hpre hsp,
      a2 _ (allWs_single _ hsp) hsp, a3 junk (allWs_single _ hsp) hx hsp, e1.2, bind,
      Except.bind, forLoop, forLoopFrom, Int.toNat_ofNat, pure, Except.pure]

/-- The first loop on record lines that are cut off before the last token of
the last record. -/
theorem readObservationsVia_cut (strtod : List Char → D) (junk : List Char) (hj : Dead junk) :
    ∀ (recs : List Record) (i : Nat) (s : BALProblem D) (pre : List Char) (j : Nat),
      AllWs pre → (∀ r ∈ recs, isFloatLit r.x = true ∧ isFloatLit r.y = true) →
      j < 4 * recs.length →
      forLoopFrom (BALProblem.readObservationVia fscanf_d_int strtod) recs.length i
          (s, pre ++ (render ((recordToks recs).take j) ++ junk))
        = Except.error Fault.fatal := by
  intro recs
  induction recs with
  | nil => intro i s pre j _ _ h; simp at h
  | cons r rs ih =>
    intro i s pre j hpre hwf hlt
    obtain ⟨hx, hy⟩ := hwf r (List.mem_cons_self _ _)
    simp only [List.length_cons, forLoopFrom]
    by_cases h4 : j < 4
    · rw [readObservationVia_cut strtod i s pre r rs junk j hpre hx hj h4]
      rfl
    · obtain ⟨j', rfl⟩ : ∃ j', j = j' + 4 := ⟨j - 4, by omega⟩
      have hstep := readObservationVia_record strtod i s pre r
        (render ((recordToks rs).take j') ++ junk) hpre hx hy
      simp only [recordToks, List.take_succ_cons, render, Tok.text, List.append_assoc,
        List.cons_append, hstep, bind, Except.bind]
      exact ih (i + 1) _ ['\n'] j' (allWs_single _ (by decide))
        (fun u hu => hwf u (List.mem_cons_of_mem _ hu)) (by simp at hlt; omega)

/-- C8, amended: let the sizes `2 * no` and `9 * nc + 3 * np` of the arrays fit
in an `int`. For the text of the dataset file cut off after `k` of its
`3 + 4 * no + 9 * nc + 3 * np` tokens, `k` being less than that number, and
followed by the end of the file or by text with which no number starts,
`LoadFile` does not return: `FscanfOrDie` ends the process with `LOG(FATAL)`. -/
theorem LoadFile_truncated_fatal [Inhabited D] (strtod : List Char → D) (self : BALProblem D)
    (nc np : Nat) (recs : List Record) (v : List (List Char))
    (hv : v.length = 9 * nc + 3 * np) (hwf : WellFormed recs v)
    (hpar : 9 * nc + 3 * np ≤ 2147483647) (hobs : 2 * recs.length ≤ 2147483647)
    (k : Nat) (hk : k < 3 + 4 * recs.length + (9 * nc + 3 * np))
    (junk : List Char) (hj : Dead junk) :
    BALProblem.LoadFileVia fscanf_d_int strtod self
        (some (render ((datasetToks nc np recs v).take k) ++ junk))
      = Except.error Fault.fatal := by
  have hsp : isspace ' ' = true := by decide
  have hnl : isspace '\n' = true := by decide
  have c1 : storedInt (nc : Int) = nc := storedInt_of_fits _ (by unfold FitsInt; omega)
  have c2 : storedInt (np : Int) = np := storedInt_of_fits _ (by unfold FitsInt; omega)
  have c3 : storedInt (recs.length : Int) = recs.length :=
    storedInt_of_fits _ (by unfold FitsInt; omega)
  have d0 := FscanfOrDie_stored_dead [] junk allWs_nil hj
  have d1 := FscanfOrDie_stored_dead [' '] junk (allWs_single _ hsp) hj
  have a1 := FscanfOrDie_stored [] nc ' '
  have a2 := FscanfOrDie_stored [' '] np ' '
  have a3 := FscanfOrDie_stored [' '] recs.length '\n'
  simp only [List.nil_append, List.singleton_append, c1, c2, c3] at d0 d1 a1 a2 a3
  by_cases h3 : k < 3
  · interval_cases k
    · simp only [datasetToks, headerToks, List.cons_append, List.take, render, List.nil_append,
        BALProblem.LoadFileVia, d0, bind, Except.bind]
    · simp only [datasetToks, headerToks, List.cons_append, List.take, render, Tok.text,
        List.nil_append, List.append_assoc, BALProblem.LoadFileVia, a1 junk allWs_nil hsp, d1,
        bind, Except.bind]
    · simp only [datasetToks, headerToks, List.cons_append, List.take, render, Tok.text,
        List.nil_append, List.append_assoc, BALProblem.LoadFileVia, a1 _ allWs_nil hsp,
        a2 junk (allWs_single _ hsp) hsp, d1, bind, Except.bind]
  · obtain ⟨k', rfl⟩ : ∃ k', k = k' + 3 := ⟨k - 3, by omega⟩
    have n1 : (newArray (recs.length : Int) : Except Fault (List Int))
        = Except.ok (List.replicate recs.length default) := newArray_nat _ _ rfl
    have n2 : (newArray (2 * (recs.length : Int)) : Except Fault (List D))
        = Except.ok (List.replicate (2 * recs.length) default) :=
      newArray_nat _ _ (by push_cast; rfl)
    have n3 : (newArray (9 * (nc : Int) + 3 * (np : Int)) : Except Fault (List D))
        = Except.ok (List.replicate v.length default) :=
      newArray_nat _ _ (by rw [hv]; push_cast; rfl)
    have t1 : ((9 * (nc : Int) + 3 * (np : Int))).toNat = v.length := by omega
    have e : (datasetToks nc np recs v).take (k' + 3)
        = (Tok.int nc, ' ') :: (Tok.int np, ' ') :: (Tok.int recs.length, '\n')
            :: (recordToks recs ++ valueToks v).take k' := rfl
    rw [e]
    simp only [List.cons_append,
      render, Tok.text, List.append_assoc, BALProblem.LoadFileVia, a1 _ allWs_nil hsp,
      a2 _ (allWs_single _ hsp) hsp, a3 _ (allWs_single _ hsp) hnl, bind, Except.bind,
      n1, n2, n3, forLoop, Int.toNat_ofNat]
    by_cases hrec : k' < 4 * recs.length
    · rw [List.take_append_of_le_length (by rw [recordToks_length]; omega)]
      have := readObservationsVia_cut strtod junk hj recs 0
        ({ self with
            num_cameras_ := nc, num_points_ := np, num_observations_ := recs.length,
            num_parameters_ := 9 * nc + 3 * np,
            point_index_ := List.replicate recs.length default,
            camera_index_ := List.replicate recs.length default,
            observations_ := List.replicate (2 * recs.length) default,
            parameters_ := List.replicate v.length default } : BALProblem D)
        ['\n'] k' (allWs_single _ hnl) hwf.1 hrec
      simp only [List.singleton_append] at this
      simp only [this]
    · rw [List.take_append_eq_append_take, List.take_of_length_le
        (by rw [recordToks_length]; omega), render_append, recordToks_length, List.append_assoc]
      obtain ⟨pre1, hpre1, h1⟩ := readObservationsVia_records strtod
        ({ self with
            num_cameras_ := nc, num_points_ := np, num_observations_ := recs.length,
            num_parameters_ := 9 * nc + 3 * np,
            parameters_ := List.replicate v.length default } : BALProblem D)
        (render ((valueToks v).take (k' - 4 * recs.length)) ++ junk) recs [] ['\n']
        (allWs_single _ hnl) hwf.1
      have h2 := readParameters_cut strtod junk hj v 0
        ({ self with
            num_cameras_ := nc, num_points_ := np, num_observations_ := recs.length,
            num_parameters_ := 9 * nc + 3 * np,
            camera_index_ := (recs.map storedRecord).map Record.cam,
            point_index_ := (recs.map storedRecord).map Record.pt,
            observations_ := (recs.map storedRecord).flatMap
              (fun r => [strtod r.x, strtod r.y]),
            parameters_ := List.replicate v.length default } : BALProblem D)
        pre1 (k' - 4 * recs.length) hpre1 hwf.2 (by omega)
      simp only [List.map_nil, List.nil_append, List.flatMap_nil, List.length_nil,
        List.singleton_append] at h1
      simp only [h1, t1, h2]

/-- The amended C8 at the dataset of `sampleFile`, cut off after its seventh
token, the end of the first of its two records. -/
theorem LoadFile_truncated_fatal_witness :
    sampleValues.length = 9 * 1 + 3 * 2 ∧ WellFormed sampleRecords sampleValues ∧
    9 * 1 + 3 * 2 ≤ 2147483647 ∧ 2 * sampleRecords.length ≤ 2147483647 ∧
    7 < 3 + 4 * sampleRecords.length + (9 * 1 + 3 * 2) ∧ Dead [] ∧
    BALProblem.LoadFileVia fscanf_d_int id (BALProblem.init (List Char))
        (some (render ((datasetToks 1 2 sampleRecords sampleValues).take 7) ++ []))
      = Except.error Fault.fatal :=
  ⟨by decide, sample_wellFormed, by decide, by decide, by decide, trivial,
    LoadFile_truncated_fatal id (BALProblem.init (List Char)) 1 2 sampleRecords sampleValues
      (by decide) sample_wellFormed (by decide) (by decide) 7 (by decide) [] trivial⟩

end TruncatedFile
